import Mathlib

/-!
Shallow embedding of the CTK DICOM database core (`ctkDICOMDatabase`).

The repository sources provide only the class header
`src/Libs/DICOM/Core/ctkDICOMDatabase.h`; the implementation file of the
class is not among the sources.  Operational definitions below are therefore
modelled from the specification of the Indexing Engine, Schema & Connection
Manager, Path Resolver, Query Facade and Deletion components (each such
definition carries a doc comment starting `Modelled from the spec:`).
Declared method names, Q_INVOKABLE status and C++ return types are taken
directly from the header file.

Modelling conventions:
* filesystem paths are segment lists (`FsPath`), and the object store is an
  association list of files, each with a `deletable` flag so that file
  deletion failures can be expressed;
* machine integers (the `unsigned short` group/element of a tag) are `Nat`;
  the hex parser enforces the 16-bit bound exactly as `QString::toUShort`;
* the content digest / up-to-date marker of an instance is modelled by the
  stored byte list itself ("size+modification time, or equivalent");
* the external parser adapter's output is `Option ParsedDataset`
  (`none` = unparsable source); the external thumbnail generator is a
  deterministic function of the object bytes;
* the `databaseChanged` Qt signal and schema initialization are recorded in
  an event trace (`DBEvent`) carried by the database state.
The instance insertion timestamp attribute is not modelled (no claim
mentions it).
-/

namespace CTKDICOM

/-- A DICOM (group,element) tag. -/
structure DicomTag where
  group : Nat
  element : Nat
deriving DecidableEq

/-- A filesystem path, as a list of path segments. -/
abbrev FsPath := List String

/-- Patient row: PatientID plus the display name attribute. -/
structure PatientRec where
  patientID : String
  patientName : String
deriving DecidableEq

/-- Study row: StudyInstanceUID, owned by one patient. -/
structure StudyRec where
  studyUID : String
  patientID : String
deriving DecidableEq

/-- Series row: SeriesInstanceUID, owned by one study, with modality. -/
structure SeriesRec where
  seriesUID : String
  studyUID : String
  modality : String
deriving DecidableEq

/-- Instance row: SOPInstanceUID, owning series, the persisted file path
(`none` in pure-index-only records) and the recorded content digest. -/
structure InstanceRec where
  sopInstanceUID : String
  seriesUID : String
  filename : Option FsPath
  digest : Option (List Nat)
deriving DecidableEq

/-- Denormalized tag-value record: (UID, tag) to string value. -/
structure TagValueRec where
  sopInstanceUID : String
  tg : DicomTag
  value : String
deriving DecidableEq

/-- The relational tables of one database (also the value persisted on disk
for a file-backed database). -/
structure SavedDB where
  patientsT : List PatientRec
  studiesT : List StudyRec
  seriesT : List SeriesRec
  instancesT : List InstanceRec
  tagValuesT : List TagValueRec
deriving DecidableEq

/-- The empty schema: all tables empty. -/
def emptySavedDB : SavedDB := ⟨[], [], [], [], []⟩

/-- Observable events of the engine: a commit of index rows, the
`databaseChanged` notification, and a (destructive) schema initialization. -/
inductive DBEvent
  | rowsCommitted
  | databaseChanged
  | initialized
deriving DecidableEq

/-- Connection state of one `ctkDICOMDatabase` object. -/
structure DBState where
  isOpen : Bool
  inMemory : Bool
  databaseFilename : String
  databaseDir : FsPath
  tables : SavedDB
  lastError : String
  events : List DBEvent
deriving DecidableEq

/-- One file of the object store, with a `deletable` flag modelling
whether an attempt to delete it succeeds. -/
structure FSFile where
  path : FsPath
  content : List Nat
  deletable : Bool
deriving DecidableEq

/-- Modelled from the spec: output of the external Parser Adapter for one
object source (`parse(path|bytes) -> {tags, patientID, studyUID, seriesUID,
sopInstanceUID, modality}`).  An empty string marks an absent level of a
partial hierarchy; `content` is `none` for metadata-only datasets. -/
structure ParsedDataset where
  patientID : String
  patientName : String
  studyInstanceUID : String
  seriesInstanceUID : String
  modality : String
  sopInstanceUID : String
  tags : List (DicomTag × String)
  content : Option (List Nat)
deriving DecidableEq

/-- Internal outcome of one `insert` call (the C++ method is `void`; the
outcome is observable through `lastError`). -/
inductive InsertStatus
  | inserted
  | notOpen
  | parseFailed
  | integrityFailed
deriving DecidableEq

/-- Arguments of one `insert` call, for reasoning about call sequences. -/
structure InsertCall where
  src : Option ParsedDataset
  storeFile : Bool
  genThumb : Bool
  createHierarchy : Bool
deriving DecidableEq

/-! ## Filesystem model -/

/-- Read the content of the file at `p`, if present. -/
def readFile (fs : List FSFile) (p : FsPath) : Option (List Nat) :=
  (fs.find? (fun f => decide (f.path = p))).map FSFile.content

/-- Write `c` at path `p`, replacing any previous file at that path. -/
def writeFile (fs : List FSFile) (p : FsPath) (c : List Nat) : List FSFile :=
  fs.filter (fun f => !decide (f.path = p)) ++ [{ path := p, content := c, deletable := true }]

/-- Delete the file at `p`.  Fails (returning the filesystem unchanged and
`false`) when an undeletable file sits at `p`; deleting an absent path
succeeds. -/
def deleteFile (fs : List FSFile) (p : FsPath) : List FSFile × Bool :=
  if ∃ f ∈ fs, f.path = p ∧ f.deletable = false then (fs, false)
  else (fs.filter (fun f => !decide (f.path = p)), true)

/-- Delete every path in `ps` in order; the flag is `true` only when every
single deletion succeeded. -/
def deleteAll (fs : List FSFile) : List FsPath → List FSFile × Bool
  | [] => (fs, true)
  | p :: ps =>
    let r := deleteFile fs p
    let rest := deleteAll r.1 ps
    (rest.1, r.2 && rest.2)

/-! ## Path Resolver -/

/-- Modelled from the spec: canonical object location
`(root)/dicom/StudyUID/SeriesUID/SOPInstanceUID` (the Path Resolver of the
missing implementation file). -/
def resolveInstancePath (root : FsPath) (studyUID seriesUID sopInstanceUID : String) : FsPath :=
  root ++ ["dicom", studyUID, seriesUID, sopInstanceUID]

/-- Modelled from the spec: thumbnail location in the parallel tree
`(root)/thumbs/StudyUID/SeriesUID/SOPInstanceUID.<ext>`. -/
def resolveThumbnailPath (root : FsPath) (studyUID seriesUID sopInstanceUID : String) : FsPath :=
  root ++ ["thumbs", studyUID, seriesUID, sopInstanceUID ++ ".png"]

/-- Destination path of the object described by dataset `d` for database `db`. -/
def instPath (db : DBState) (d : ParsedDataset) : FsPath :=
  resolveInstancePath db.databaseDir d.studyInstanceUID d.seriesInstanceUID d.sopInstanceUID

/-- Destination path of the thumbnail of dataset `d` for database `db`. -/
def thumbPath (db : DBState) (d : ParsedDataset) : FsPath :=
  resolveThumbnailPath db.databaseDir d.studyInstanceUID d.seriesInstanceUID d.sopInstanceUID

/-- Modelled from the spec: the external thumbnail capability, a
deterministic function of the object bytes (its output content is
irrelevant to the index). -/
def thumbnailBytes (bytes : List Nat) : List Nat := bytes

/-! ## Non-destructive attribute merging and upserts -/

/-- Modelled from the spec: update a string attribute non-destructively --
a previously known field is never blanked out by an empty incoming value. -/
def preferNew (old new : String) : String :=
  if new = "" then old else new

/-- Modelled from the spec: update an optional attribute non-destructively. -/
def preferNewOpt {α : Type} (old new : Option α) : Option α :=
  match new with
  | none => old
  | some v => some v

/-- Merge an incoming patient record into an existing row. -/
def mergePatient (old new : PatientRec) : PatientRec :=
  { patientID := old.patientID, patientName := preferNew old.patientName new.patientName }

/-- Merge an incoming study record into an existing row. -/
def mergeStudy (old new : StudyRec) : StudyRec :=
  { studyUID := old.studyUID, patientID := preferNew old.patientID new.patientID }

/-- Merge an incoming series record into an existing row. -/
def mergeSeries (old new : SeriesRec) : SeriesRec :=
  { seriesUID := old.seriesUID, studyUID := preferNew old.studyUID new.studyUID,
    modality := preferNew old.modality new.modality }

/-- Merge an incoming instance record into an existing row. -/
def mergeInstance (old new : InstanceRec) : InstanceRec :=
  { sopInstanceUID := old.sopInstanceUID,
    seriesUID := preferNew old.seriesUID new.seriesUID,
    filename := preferNewOpt old.filename new.filename,
    digest := preferNewOpt old.digest new.digest }

/-- Modelled from the spec: upsert a row keyed by its UID -- if the UID is
unseen the row is appended, otherwise the first row with that UID is updated
in place via `merge`; re-insertion never duplicates. -/
def upsertBy {α : Type} (key : α → String) (merge : α → α → α) : List α → α → List α
  | [], r => [r]
  | x :: xs, r => if key x = key r then merge x r :: xs else x :: upsertBy key merge xs r

/-- Patient record extracted from a dataset. -/
def patientOf (d : ParsedDataset) : PatientRec := ⟨d.patientID, d.patientName⟩

/-- Study record extracted from a dataset. -/
def studyOf (d : ParsedDataset) : StudyRec := ⟨d.studyInstanceUID, d.patientID⟩

/-- Series record extracted from a dataset. -/
def seriesOf (d : ParsedDataset) : SeriesRec :=
  ⟨d.seriesInstanceUID, d.studyInstanceUID, d.modality⟩

/-- Instance record extracted from a dataset, with the persisted filename
and digest decided by the storage step. -/
def instanceOf (d : ParsedDataset) (fn : Option FsPath) (dg : Option (List Nat)) : InstanceRec :=
  ⟨d.sopInstanceUID, d.seriesInstanceUID, fn, dg⟩

/-- Upsert the Patient level of a dataset, when present. -/
def upsertPatientLevel (t : SavedDB) (d : ParsedDataset) : SavedDB :=
  if d.patientID = "" then t
  else { t with patientsT := upsertBy PatientRec.patientID mergePatient t.patientsT (patientOf d) }

/-- Upsert the Study level of a dataset, when present. -/
def upsertStudyLevel (t : SavedDB) (d : ParsedDataset) : SavedDB :=
  if d.studyInstanceUID = "" then t
  else { t with studiesT := upsertBy StudyRec.studyUID mergeStudy t.studiesT (studyOf d) }

/-- Upsert the Series level of a dataset, when present. -/
def upsertSeriesLevel (t : SavedDB) (d : ParsedDataset) : SavedDB :=
  if d.seriesInstanceUID = "" then t
  else { t with seriesT := upsertBy SeriesRec.seriesUID mergeSeries t.seriesT (seriesOf d) }

/-- Upsert the Instance level of a dataset, when present. -/
def upsertInstanceLevel (t : SavedDB) (d : ParsedDataset) (fn : Option FsPath)
    (dg : Option (List Nat)) : SavedDB :=
  if d.sopInstanceUID = "" then t
  else { t with instancesT := upsertBy InstanceRec.sopInstanceUID mergeInstance t.instancesT
                  (instanceOf d fn dg) }

/-- Modelled from the spec: step 2 of the insert algorithm -- for each
present level from Patient downward, upsert the row (the path and digest
recorded by the storage step are folded into the instance row upsert). -/
def upsertLevels (t : SavedDB) (d : ParsedDataset) (fn : Option FsPath)
    (dg : Option (List Nat)) : SavedDB :=
  upsertInstanceLevel (upsertSeriesLevel (upsertStudyLevel (upsertPatientLevel t d) d) d) d fn dg

/-- Modelled from the spec: step 5 of the insert algorithm -- refresh the
tag-value records of the instance from every enumerable (group,element)
pair the Parser Adapter exposes (previous records of the instance are
replaced). -/
def refreshTags (t : SavedDB) (d : ParsedDataset) : SavedDB :=
  if d.sopInstanceUID = "" then t
  else { t with tagValuesT :=
    t.tagValuesT.filter (fun tv => !decide (tv.sopInstanceUID = d.sopInstanceUID))
      ++ d.tags.map (fun pr => ⟨d.sopInstanceUID, pr.1, pr.2⟩) }

/-! ## Up-to-date detection and insert -/

/-- Modelled from the spec: `fileExistsAndUpToDate(path)` compares the
current filesystem state of `path` against the last recorded digest of the
Instance that owns it; `false` when the Instance is not indexed at all. -/
def fileExistsAndUpToDate (db : DBState) (fs : List FSFile) (p : FsPath) : Bool :=
  match readFile fs p with
  | none => false
  | some c => db.tables.instancesT.any (fun i => decide (i.filename = some p ∧ i.digest = some c))

/-- Whether a series row with the given UID is indexed. -/
def seriesExists (db : DBState) (uid : String) : Bool :=
  db.tables.seriesT.any (fun s => decide (s.seriesUID = uid))

/-- Whether the storage step of `insert` copies the object to disk: an
instance with content is present, storing is requested, the database is not
in memory-only mode, and the destination is not already up to date. -/
def doStoreFlag (db : DBState) (fs : List FSFile) (d : ParsedDataset) (storeFile : Bool) : Bool :=
  storeFile && !db.inMemory && decide (¬ d.sopInstanceUID = "") && d.content.isSome
    && !(fileExistsAndUpToDate db fs (instPath db d))

/-- Whether the thumbnail step writes a thumbnail: requested, a renderable
instance is present, and the database is not in memory-only mode. -/
def doThumbFlag (db : DBState) (d : ParsedDataset) (genThumb : Bool) : Bool :=
  genThumb && !db.inMemory && decide (¬ d.sopInstanceUID = "") && d.content.isSome

/-- Filename recorded on the instance row by the storage step. -/
def storedFilename (db : DBState) (fs : List FSFile) (d : ParsedDataset)
    (storeFile : Bool) : Option FsPath :=
  if doStoreFlag db fs d storeFile then some (instPath db d) else none

/-- Digest recorded on the instance row by the storage step. -/
def storedDigest (db : DBState) (fs : List FSFile) (d : ParsedDataset)
    (storeFile : Bool) : Option (List Nat) :=
  if doStoreFlag db fs d storeFile then d.content else none

/-- Modelled from the spec: the body of a successful `insert` call on an
open database with a parsable source -- upsert the present levels, store
the object file unless already up to date (skipping the copy), write the
thumbnail, refresh the tag-value records, then commit and emit the
`databaseChanged` notification exactly once. -/
def insertCore (db : DBState) (fs : List FSFile) (d : ParsedDataset)
    (storeFile genThumb : Bool) : DBState × List FSFile :=
  let t2 := refreshTags
    (upsertLevels db.tables d (storedFilename db fs d storeFile) (storedDigest db fs d storeFile)) d
  let fs1 := if doStoreFlag db fs d storeFile
    then writeFile fs (instPath db d) (d.content.getD []) else fs
  let fs2 := if doThumbFlag db d genThumb
    then writeFile fs1 (thumbPath db d) (thumbnailBytes (d.content.getD [])) else fs1
  ({ db with tables := t2,
             events := db.events ++ [DBEvent.rowsCommitted, DBEvent.databaseChanged] }, fs2)

/-- Modelled from the spec: the `insert` operation of the Indexing Engine.
`src` is the Parser Adapter's output (`none` = unparsable source).  A closed
database fails with "not open"; an unparsable source or an integrity
violation (instance without resolvable series and `createHierarchy=false`)
aborts the call with zero partial commits. -/
def insert (db : DBState) (fs : List FSFile) (src : Option ParsedDataset)
    (storeFile genThumb createHierarchy : Bool) : DBState × List FSFile × InsertStatus :=
  if db.isOpen = false then ({ db with lastError := "database not open" }, fs, InsertStatus.notOpen)
  else
    match src with
    | none => ({ db with lastError := "unparsable source" }, fs, InsertStatus.parseFailed)
    | some d =>
      if createHierarchy = false ∧ ¬ d.sopInstanceUID = "" ∧ seriesExists db d.seriesInstanceUID = false
      then ({ db with lastError := "integrity error: series not found" }, fs,
            InsertStatus.integrityFailed)
      else
        let r := insertCore db fs d storeFile genThumb
        (r.1, r.2, InsertStatus.inserted)

/-- Run a sequence of `insert` calls. -/
def insertMany (db : DBState) (fs : List FSFile) : List InsertCall → DBState × List FSFile
  | [] => (db, fs)
  | c :: cs =>
    let r := insert db fs c.src c.storeFile c.genThumb c.createHierarchy
    insertMany r.1 r.2.1 cs

/-! ## Schema & Connection Manager -/

/-- Find the persisted database stored under a filename. -/
def lookupSaved : List (String × SavedDB) → String → Option SavedDB
  | [], _ => none
  | e :: es, k => if e.1 = k then some e.2 else lookupSaved es k

/-- Modelled from the spec: `openDatabase(databaseFile)` -- `":memory:"`
opens a fresh memory-only database; an existing database file is a plain
connect that does NOT re-run initialization; a missing file is created and
initialized with the default schema.  `disk` is the persistent store of
database files, `dbDir` the directory holding the database file. -/
def openDatabase (disk : List (String × SavedDB)) (databaseFile : String)
    (dbDir : FsPath) : DBState × List (String × SavedDB) :=
  if databaseFile = ":memory:" then
    ({ isOpen := true, inMemory := true, databaseFilename := databaseFile,
       databaseDir := dbDir, tables := emptySavedDB, lastError := "",
       events := [DBEvent.initialized] }, disk)
  else
    match lookupSaved disk databaseFile with
    | some saved =>
      ({ isOpen := true, inMemory := false, databaseFilename := databaseFile,
         databaseDir := dbDir, tables := saved, lastError := "", events := [] }, disk)
    | none =>
      ({ isOpen := true, inMemory := false, databaseFilename := databaseFile,
         databaseDir := dbDir, tables := emptySavedDB, lastError := "",
         events := [DBEvent.initialized] }, (databaseFile, emptySavedDB) :: disk)

/-- Modelled from the spec: `closeDatabase()` invalidates the handle. -/
def closeDatabase (db : DBState) : DBState := { db with isOpen := false }

/-- Modelled from the spec: `initializeDatabase` deletes all data and
re-creates the schema (destructive, explicit only). -/
def initializeDatabase (db : DBState) : DBState × Bool :=
  ({ db with tables := emptySavedDB, events := db.events ++ [DBEvent.initialized] }, true)

/-! ## Query Facade -/

/-- `patients()`. -/
def patients (db : DBState) : List String :=
  db.tables.patientsT.map PatientRec.patientID

/-- `studiesForPatient(patientUID)`. -/
def studiesForPatient (db : DBState) (patientUID : String) : List String :=
  (db.tables.studiesT.filter (fun s => decide (s.patientID = patientUID))).map StudyRec.studyUID

/-- `seriesForStudy(studyUID)`. -/
def seriesForStudy (db : DBState) (studyUID : String) : List String :=
  (db.tables.seriesT.filter (fun s => decide (s.studyUID = studyUID))).map SeriesRec.seriesUID

/-- `filesForSeries(seriesUID)`: the stored file paths of the instances of
the series (instances without a persisted path contribute nothing). -/
def filesForSeries (db : DBState) (seriesUID : String) : List FsPath :=
  db.tables.instancesT.filterMap
    (fun i => if i.seriesUID = seriesUID then i.filename else none)

/-- `fileForInstance(sopInstanceUID)`. -/
def fileForInstance (db : DBState) (sopInstanceUID : String) : Option FsPath :=
  (db.tables.instancesT.find? (fun i => decide (i.sopInstanceUID = sopInstanceUID))).bind
    InstanceRec.filename

/-- First recorded value for (UID, tag) in the tag-value table. -/
def findTagValue : List TagValueRec → String → DicomTag → Option String
  | [], _, _ => none
  | tv :: tvs, s, tg =>
    if tv.sopInstanceUID = s ∧ tv.tg = tg then some tv.value else findTagValue tvs s tg

/-- Modelled from the spec: `instanceValue(sopInstanceUID, group, element)`
returns the recorded value, or the empty-string sentinel when the tag is
absent (per the header: "Returns empty string is element is missing"). -/
def instanceValue (db : DBState) (sopInstanceUID : String) (group element : Nat) : String :=
  (findTagValue db.tables.tagValuesT sopInstanceUID ⟨group, element⟩).getD ""

/-- Value of a hex digit, as in `QString::toUShort(.., 16)`. -/
def hexDigitVal (c : Char) : Option Nat :=
  if '0' ≤ c ∧ c ≤ '9' then some (c.toNat - 48)
  else if 'a' ≤ c ∧ c ≤ 'f' then some (c.toNat - 87)
  else if 'A' ≤ c ∧ c ≤ 'F' then some (c.toNat - 55)
  else none

/-- Parse a nonempty all-hex digit string. -/
def hexVal : List Char → Option Nat
  | [] => none
  | cs => cs.foldl (fun acc c =>
      match acc, hexDigitVal c with
      | some a, some v => some (16 * a + v)
      | _, _ => none) (some 0)

/-- Split a character list on commas (`QString::split(",")`). -/
def splitCommaAux : List Char → List Char → List (List Char)
  | [], acc => [acc.reverse]
  | c :: cs, acc => if c = ',' then acc.reverse :: splitCommaAux cs [] else splitCommaAux cs (c :: acc)

/-- Modelled from the spec and the header: `tagToGroupElement(tag, group,
element)` parses a "group,element" key in zero-filled hex into its two
16-bit components; `none` models the `false` return. -/
def tagToGroupElement (tag : String) : Option (Nat × Nat) :=
  match splitCommaAux tag.toList [] with
  | [g, e] =>
    match hexVal g, hexVal e with
    | some gv, some ev => if gv < 65536 ∧ ev < 65536 then some (gv, ev) else none
    | _, _ => none
  | _ => none

/-- Modelled from the spec: the string-keyed `instanceValue(sopInstanceUID,
tag)` overload -- convert the tag key and look up, empty sentinel when the
key does not parse. -/
def instanceValueTag (db : DBState) (sopInstanceUID : String) (tag : String) : String :=
  match tagToGroupElement tag with
  | some ge => instanceValue db sopInstanceUID ge.1 ge.2
  | none => ""

/-- Modelled from the spec: `fileValue(fileName, group, element)` -- the
same lookup keyed by path, via a path-to-UID reverse lookup. -/
def fileValue (db : DBState) (fileName : FsPath) (group element : Nat) : String :=
  match db.tables.instancesT.find? (fun i => decide (i.filename = some fileName)) with
  | some i => instanceValue db i.sopInstanceUID group element
  | none => ""

/-- Modelled from the spec: the string-keyed `fileValue(fileName, tag)`
overload. -/
def fileValueTag (db : DBState) (fileName : FsPath) (tag : String) : String :=
  match tagToGroupElement tag with
  | some ge => fileValue db fileName ge.1 ge.2
  | none => ""

/-- First value recorded for a tag inside a dataset's enumerated pairs. -/
def lookupTag : List (DicomTag × String) → DicomTag → Option String
  | [], _ => none
  | pr :: prs, tg => if pr.1 = tg then some pr.2 else lookupTag prs tg

/-- The value a dataset carries for a tag, if any. -/
def datasetTagValue (d : ParsedDataset) (tg : DicomTag) : Option String :=
  lookupTag d.tags tg

/-! ## Deletion/Cleanup -/

/-- The instance rows belonging to a series. -/
def childInstances (db : DBState) (seriesUID : String) : List InstanceRec :=
  db.tables.instancesT.filter (fun i => decide (i.seriesUID = seriesUID))

/-- The on-disk paths `removeSeries` must delete: the stored files of the
series' instances and their thumbnails. -/
def removePaths (db : DBState) (seriesUID : String) : List FsPath :=
  match db.tables.seriesT.find? (fun sr => decide (sr.seriesUID = seriesUID)) with
  | none => []
  | some srow =>
    (childInstances db seriesUID).filterMap InstanceRec.filename
      ++ (childInstances db seriesUID).map
          (fun i => resolveThumbnailPath db.databaseDir srow.studyUID seriesUID i.sopInstanceUID)

/-- Modelled from the spec: `removeSeries(seriesInstanceUID)` deletes the
Series row, all child Instance rows, their tag-value records, their files
and thumbnails; returns `false` when the series does not exist or any file
deletion fails (rows already removed are not rolled back). -/
def removeSeries (db : DBState) (fs : List FSFile) (seriesInstanceUID : String) :
    DBState × List FSFile × Bool :=
  match db.tables.seriesT.find? (fun sr => decide (sr.seriesUID = seriesInstanceUID)) with
  | none => (db, fs, false)
  | some _ =>
    let dr := deleteAll fs (removePaths db seriesInstanceUID)
    let sops := (childInstances db seriesInstanceUID).map InstanceRec.sopInstanceUID
    let t := db.tables
    ({ db with
        tables := { t with
          seriesT := t.seriesT.filter (fun sr => !decide (sr.seriesUID = seriesInstanceUID)),
          instancesT := t.instancesT.filter (fun i => !decide (i.seriesUID = seriesInstanceUID)),
          tagValuesT := t.tagValuesT.filter
            (fun tv => !(sops.any (fun u => decide (u = tv.sopInstanceUID)))) },
        events := db.events ++ [DBEvent.databaseChanged] },
      dr.1, dr.2)

/-! ## Q_INVOKABLE entry points of the header -/

/-- The Q_INVOKABLE entry points declared in `ctkDICOMDatabase.h`. -/
inductive EntryPoint
  | openDatabase
  | closeDatabase
  | initializeDatabase
  | patients
  | studiesForPatient
  | seriesForStudy
  | filesForSeries
  | fileForInstance
  | loadInstanceHeader
  | loadFileHeader
  | headerKeys
  | headerValue
  | insertDataset
  | insertFilePath
  | removeSeries
  | removeStudy
  | removePatient
  | instanceValueTagKey
  | instanceValueGroupElement
  | fileValueTagKey
  | fileValueGroupElement
deriving DecidableEq, Fintype

/-- The C++ return types occurring on those entry points. -/
inductive CppReturnType
  | voidReturn
  | boolReturn
  | qStringReturn
  | qStringListReturn
deriving DecidableEq

/-- Declared return type of each Q_INVOKABLE entry point, transcribed from
`ctkDICOMDatabase.h`. -/
def declaredReturnType : EntryPoint → CppReturnType
  | EntryPoint.openDatabase => CppReturnType.voidReturn
  | EntryPoint.closeDatabase => CppReturnType.voidReturn
  | EntryPoint.initializeDatabase => CppReturnType.boolReturn
  | EntryPoint.patients => CppReturnType.qStringListReturn
  | EntryPoint.studiesForPatient => CppReturnType.qStringListReturn
  | EntryPoint.seriesForStudy => CppReturnType.qStringListReturn
  | EntryPoint.filesForSeries => CppReturnType.qStringListReturn
  | EntryPoint.fileForInstance => CppReturnType.qStringReturn
  | EntryPoint.loadInstanceHeader => CppReturnType.voidReturn
  | EntryPoint.loadFileHeader => CppReturnType.voidReturn
  | EntryPoint.headerKeys => CppReturnType.qStringListReturn
  | EntryPoint.headerValue => CppReturnType.qStringReturn
  | EntryPoint.insertDataset => CppReturnType.voidReturn
  | EntryPoint.insertFilePath => CppReturnType.voidReturn
  | EntryPoint.removeSeries => CppReturnType.boolReturn
  | EntryPoint.removeStudy => CppReturnType.boolReturn
  | EntryPoint.removePatient => CppReturnType.boolReturn
  | EntryPoint.instanceValueTagKey => CppReturnType.qStringReturn
  | EntryPoint.instanceValueGroupElement => CppReturnType.qStringReturn
  | EntryPoint.fileValueTagKey => CppReturnType.qStringReturn
  | EntryPoint.fileValueGroupElement => CppReturnType.qStringReturn

/-- An entry point can convey failure through its return value only when it
does not return `void`. -/
def conveysFailureViaReturnValue (ep : EntryPoint) : Bool :=
  decide (¬ declaredReturnType ep = CppReturnType.voidReturn)

/-! ## Concrete fixtures used by witnesses -/

/-- A concrete dataset with a full hierarchy and one tag pair. -/
def wDataset : ParsedDataset :=
  { patientID := "P1", patientName := "Doe", studyInstanceUID := "S1",
    seriesInstanceUID := "SE1", modality := "CT", sopInstanceUID := "I1",
    tags := [(⟨16, 16⟩, "Doe")], content := some [1, 2, 3] }

/-- A concrete open, file-backed, empty database. -/
def wOpenDB : DBState :=
  { isOpen := true, inMemory := false, databaseFilename := "ctk.db",
    databaseDir := ["root"], tables := emptySavedDB, lastError := "", events := [] }

/-- A concrete database holding one fully stored series. -/
def wSeriesDB : DBState :=
  { wOpenDB with tables :=
    { patientsT := [⟨"P1", "Doe"⟩], studiesT := [⟨"S1", "P1"⟩],
      seriesT := [⟨"SE1", "S1", "CT"⟩],
      instancesT := [⟨"I1", "SE1", some ["root", "dicom", "S1", "SE1", "I1"], some [1, 2, 3]⟩],
      tagValuesT := [⟨"I1", ⟨16, 16⟩, "Doe"⟩] } }

/-- The filesystem matching `wSeriesDB`: the stored object and thumbnail. -/
def wSeriesFS : List FSFile :=
  [⟨["root", "dicom", "S1", "SE1", "I1"], [1, 2, 3], true⟩,
   ⟨["root", "thumbs", "S1", "SE1", "I1.png"], [1, 2, 3], true⟩]

/-- A concrete persistent store holding one database file. -/
def wDisk : List (String × SavedDB) := [("ctk.db", wSeriesDB.tables)]

/-! ## Helper lemmas: attribute merging -/

lemma preferNew_again (a b : String) : preferNew (preferNew a b) b = preferNew a b := by
  by_cases h : b = "" <;> simp [preferNew, h]

lemma preferNew_self (a : String) : preferNew a a = a := by
  by_cases h : a = "" <;> simp [preferNew, h]

lemma mergePatient_key (x r : PatientRec) : (mergePatient x r).patientID = x.patientID := rfl

lemma mergePatient_again (x r : PatientRec) :
    mergePatient (mergePatient x r) r = mergePatient x r := by
  simp [mergePatient, preferNew_again]

lemma mergePatient_self (r : PatientRec) : mergePatient r r = r := by
  simp [mergePatient, preferNew_self]

lemma mergeStudy_key (x r : StudyRec) : (mergeStudy x r).studyUID = x.studyUID := rfl

lemma mergeStudy_again (x r : StudyRec) : mergeStudy (mergeStudy x r) r = mergeStudy x r := by
  simp [mergeStudy, preferNew_again]

lemma mergeStudy_self (r : StudyRec) : mergeStudy r r = r := by
  simp [mergeStudy, preferNew_self]

lemma mergeSeries_key (x r : SeriesRec) : (mergeSeries x r).seriesUID = x.seriesUID := rfl

lemma mergeSeries_again (x r : SeriesRec) :
    mergeSeries (mergeSeries x r) r = mergeSeries x r := by
  simp [mergeSeries, preferNew_again]

lemma mergeSeries_self (r : SeriesRec) : mergeSeries r r = r := by
  simp [mergeSeries, preferNew_self]

lemma mergeInstance_key (x r : InstanceRec) :
    (mergeInstance x r).sopInstanceUID = x.sopInstanceUID := rfl

lemma mergeInstance_again (x r1 r2 : InstanceRec)
    (hs : r2.seriesUID = r1.seriesUID) (hf : r2.filename = none) (hd : r2.digest = none) :
    mergeInstance (mergeInstance x r1) r2 = mergeInstance x r1 := by
  simp [mergeInstance, hs, hf, hd, preferNewOpt, preferNew_again]

lemma mergeInstance_absorb (r1 r2 : InstanceRec)
    (hs : r2.seriesUID = r1.seriesUID) (hf : r2.filename = none) (hd : r2.digest = none) :
    mergeInstance r1 r2 = r1 := by
  simp [mergeInstance, hs, hf, hd, preferNewOpt, preferNew_self]

/-! ## Helper lemmas: upserting -/

lemma upsertBy_second {α : Type} (key : α → String) (merge : α → α → α) (r1 r2 : α)
    (hkey : key r2 = key r1)
    (hkm : ∀ x, key (merge x r1) = key x)
    (h12 : ∀ x, merge (merge x r1) r2 = merge x r1)
    (hr : merge r1 r2 = r1) (l : List α) :
    upsertBy key merge (upsertBy key merge l r1) r2 = upsertBy key merge l r1 := by
  induction l with
  | nil => simp [upsertBy, hkey, hr]
  | cons x xs ih =>
    by_cases h : key x = key r1
    · simp [upsertBy, h, hkey, hkm, h12]
    · have hx2 : ¬ key x = key r2 := by rw [hkey]; exact h
      simp [upsertBy, h, hx2, ih]

lemma upsertBy_again {α : Type} (key : α → String) (merge : α → α → α) (r : α)
    (hkm : ∀ x, key (merge x r) = key x)
    (h2 : ∀ x, merge (merge x r) r = merge x r)
    (hr : merge r r = r) (l : List α) :
    upsertBy key merge (upsertBy key merge l r) r = upsertBy key merge l r :=
  upsertBy_second key merge r r rfl hkm h2 hr l

lemma upsertBy_mem {α : Type} {key : α → String} {merge : α → α → α} {l : List α} {r y : α}
    (hy : y ∈ upsertBy key merge l r) :
    y ∈ l ∨ y = r ∨ ∃ x, x ∈ l ∧ y = merge x r := by
  induction l with
  | nil => simp [upsertBy] at hy; exact Or.inr (Or.inl hy)
  | cons x xs ih =>
    by_cases h : key x = key r
    · simp only [upsertBy, if_pos h, List.mem_cons] at hy
      rcases hy with hy | hy
      · exact Or.inr (Or.inr ⟨x, List.mem_cons_self x xs, hy⟩)
      · exact Or.inl (List.mem_cons_of_mem x hy)
    · simp only [upsertBy, if_neg h, List.mem_cons] at hy
      rcases hy with hy | hy
      · exact Or.inl (hy ▸ List.mem_cons_self x xs)
      · rcases ih hy with h1 | h2 | ⟨z, hz, he⟩
        · exact Or.inl (List.mem_cons_of_mem x h1)
        · exact Or.inr (Or.inl h2)
        · exact Or.inr (Or.inr ⟨z, List.mem_cons_of_mem x hz, he⟩)

lemma upsertBy_any_of {α : Type} (key : α → String) (merge : α → α → α) (r : α) (Q : α → Bool)
    (hQr : Q r = true) (hQm : ∀ x, Q (merge x r) = true) (l : List α) :
    (upsertBy key merge l r).any Q = true := by
  induction l with
  | nil => simp [upsertBy, hQr]
  | cons x xs ih =>
    by_cases h : key x = key r
    · simp [upsertBy, h, hQm]
    · simp [upsertBy, h, ih]

lemma upsertBy_preserves_any {α : Type} (key : α → String) (merge : α → α → α) (r : α)
    (Q : α → Bool) (hQm : ∀ x, Q x = true → Q (merge x r) = true) (l : List α)
    (h : l.any Q = true) :
    (upsertBy key merge l r).any Q = true := by
  induction l with
  | nil => simp at h
  | cons x xs ih =>
    simp only [List.any_cons, Bool.or_eq_true] at h
    by_cases hk : key x = key r
    · rcases h with h | h
      · simp [upsertBy, hk, hQm x h]
      · simp [upsertBy, hk, h]
    · rcases h with h | h
      · simp [upsertBy, hk, h]
      · simp [upsertBy, hk, ih h]

/-! ## Helper lemmas: filesystem -/

lemma readFile_writeFile_same (fs : List FSFile) (p : FsPath) (c : List Nat) :
    readFile (writeFile fs p c) p = some c := by
  unfold readFile writeFile
  induction fs with
  | nil => simp [List.find?]
  | cons f fs ih =>
    by_cases h : f.path = p
    · simpa [List.filter_cons, h] using ih
    · simpa [List.filter_cons, h, List.find?] using ih

lemma find?_path_filter (fs : List FSFile) (p q : FsPath) (h : ¬ p = q) :
    List.find? (fun f => decide (f.path = p)) (fs.filter (fun f => !decide (f.path = q)))
      = List.find? (fun f => decide (f.path = p)) fs := by
  induction fs with
  | nil => rfl
  | cons f fs ih =>
    have hqp : ¬ q = p := fun hc => h hc.symm
    by_cases hq : f.path = q
    · have hp : ¬ f.path = p := by intro hc; exact h (hc.symm.trans hq)
      simp [List.filter_cons, List.find?, hq, hp, hqp, ih]
    · by_cases hp : f.path = p
      · simp [List.filter_cons, List.find?, hq, hp, hqp, h]
      · simp [List.filter_cons, List.find?, hq, hp, hqp, ih]

lemma readFile_writeFile_other (fs : List FSFile) (p q : FsPath) (c : List Nat)
    (h : ¬ p = q) : readFile (writeFile fs q c) p = readFile fs p := by
  unfold readFile writeFile
  rw [List.find?_append, find?_path_filter fs p q h]
  have hqp : ¬ q = p := fun hc => h hc.symm
  have hnone :
      List.find? (fun f => decide (f.path = p))
        [({ path := q, content := c, deletable := true } : FSFile)] = none := by
    simp [List.find?, hqp]
  rw [hnone]
  cases List.find? (fun f => decide (f.path = p)) fs <;> rfl

lemma writeFile_writeFile (fs : List FSFile) (p : FsPath) (c c2 : List Nat) :
    writeFile (writeFile fs p c) p c2 = writeFile fs p c2 := by
  unfold writeFile
  rw [List.filter_append, List.filter_filter]
  simp

lemma deleteFile_false_iff (fs : List FSFile) (p : FsPath) :
    (deleteFile fs p).2 = false ↔ ∃ f ∈ fs, f.path = p ∧ f.deletable = false := by
  by_cases h : ∃ f ∈ fs, f.path = p ∧ f.deletable = false
  · rw [deleteFile, if_pos h]; simp [h]
  · rw [deleteFile, if_neg h]; simp [h]

lemma deleteFile_sub {fs : List FSFile} {p : FsPath} {f : FSFile}
    (hf : f ∈ (deleteFile fs p).1) : f ∈ fs := by
  by_cases h : ∃ f ∈ fs, f.path = p ∧ f.deletable = false
  · rw [deleteFile, if_pos h] at hf; exact hf
  · rw [deleteFile, if_neg h] at hf
    exact (List.mem_filter.mp hf).1

lemma deleteFile_keeps {fs : List FSFile} {p : FsPath} {f : FSFile}
    (hf : f ∈ fs) (hd : f.deletable = false) : f ∈ (deleteFile fs p).1 := by
  by_cases h : ∃ f ∈ fs, f.path = p ∧ f.deletable = false
  · rw [deleteFile, if_pos h]; exact hf
  · rw [deleteFile, if_neg h]
    refine List.mem_filter.mpr ⟨hf, ?_⟩
    have hpth : ¬ f.path = p := fun hp => h ⟨f, hf, hp, hd⟩
    simp [hpth]

lemma deleteFile_removes {fs : List FSFile} {p : FsPath} {f : FSFile}
    (h2 : (deleteFile fs p).2 = true) (hf : f ∈ (deleteFile fs p).1) : ¬ f.path = p := by
  by_cases h : ∃ f ∈ fs, f.path = p ∧ f.deletable = false
  · rw [deleteFile, if_pos h] at h2; cases h2
  · rw [deleteFile, if_neg h] at hf
    have := (List.mem_filter.mp hf).2
    simpa using this

lemma deleteAll_sub {f : FSFile} :
    ∀ (ps : List FsPath) (fs : List FSFile), f ∈ (deleteAll fs ps).1 → f ∈ fs := by
  intro ps
  induction ps with
  | nil => intro fs h; simpa [deleteAll] using h
  | cons p ps ih =>
    intro fs h
    simp only [deleteAll] at h
    exact deleteFile_sub (ih (deleteFile fs p).1 h)

lemma deleteAll_false_iff :
    ∀ (ps : List FsPath) (fs : List FSFile),
    (deleteAll fs ps).2 = false ↔ ∃ p, p ∈ ps ∧ ∃ f, f ∈ fs ∧ f.path = p ∧ f.deletable = false := by
  intro ps
  induction ps with
  | nil => intro fs; simp [deleteAll]
  | cons p ps ih =>
    intro fs
    simp only [deleteAll, Bool.and_eq_false_iff]
    constructor
    · rintro (h | h)
      · rcases (deleteFile_false_iff fs p).mp h with ⟨f, hf, hp, hd⟩
        exact ⟨p, List.mem_cons_self p ps, f, hf, hp, hd⟩
      · rcases (ih (deleteFile fs p).1).mp h with ⟨q, hq, f, hf, hp, hd⟩
        exact ⟨q, List.mem_cons_of_mem p hq, f, deleteFile_sub hf, hp, hd⟩
    · rintro ⟨q, hq, f, hf, hp, hd⟩
      rcases List.mem_cons.mp hq with hq | hq
      · exact Or.inl ((deleteFile_false_iff fs p).mpr ⟨f, hf, hq ▸ hp, hd⟩)
      · exact Or.inr ((ih (deleteFile fs p).1).mpr ⟨q, hq, f, deleteFile_keeps hf hd, hp, hd⟩)

lemma deleteAll_removes :
    ∀ (ps : List FsPath) (fs : List FSFile) (p : FsPath),
    (deleteAll fs ps).2 = true → p ∈ ps → ∀ f ∈ (deleteAll fs ps).1, ¬ f.path = p := by
  intro ps
  induction ps with
  | nil => intro fs p _ hp; cases hp
  | cons q ps ih =>
    intro fs p hsucc hp f hf hpath
    simp only [deleteAll, Bool.and_eq_true] at hsucc hf
    rcases List.mem_cons.mp hp with hq | hq
    · have hmem : f ∈ (deleteFile fs q).1 := deleteAll_sub ps (deleteFile fs q).1 hf
      exact deleteFile_removes hsucc.1 hmem (hq ▸ hpath)
    · exact ih (deleteFile fs q).1 p hsucc.2 hq f hf hpath

/-! ## Helper lemmas: table-level structure -/

lemma savedDB_eq {a b : SavedDB} (h1 : a.patientsT = b.patientsT) (h2 : a.studiesT = b.studiesT)
    (h3 : a.seriesT = b.seriesT) (h4 : a.instancesT = b.instancesT)
    (h5 : a.tagValuesT = b.tagValuesT) : a = b := by
  cases a; cases b; simp_all

lemma upsertPatientLevel_patientsT (t : SavedDB) (d : ParsedDataset) :
    (upsertPatientLevel t d).patientsT =
      if d.patientID = "" then t.patientsT
      else upsertBy PatientRec.patientID mergePatient t.patientsT (patientOf d) := by
  unfold upsertPatientLevel; split <;> rfl

lemma upsertPatientLevel_studiesT (t : SavedDB) (d : ParsedDataset) :
    (upsertPatientLevel t d).studiesT = t.studiesT := by
  unfold upsertPatientLevel; split <;> rfl

lemma upsertPatientLevel_seriesT (t : SavedDB) (d : ParsedDataset) :
    (upsertPatientLevel t d).seriesT = t.seriesT := by
  unfold upsertPatientLevel; split <;> rfl

lemma upsertPatientLevel_instancesT (t : SavedDB) (d : ParsedDataset) :
    (upsertPatientLevel t d).instancesT = t.instancesT := by
  unfold upsertPatientLevel; split <;> rfl

lemma upsertPatientLevel_tagValuesT (t : SavedDB) (d : ParsedDataset) :
    (upsertPatientLevel t d).tagValuesT = t.tagValuesT := by
  unfold upsertPatientLevel; split <;> rfl

lemma upsertStudyLevel_studiesT (t : SavedDB) (d : ParsedDataset) :
    (upsertStudyLevel t d).studiesT =
      if d.studyInstanceUID = "" then t.studiesT
      else upsertBy StudyRec.studyUID mergeStudy t.studiesT (studyOf d) := by
  unfold upsertStudyLevel; split <;> rfl

lemma upsertStudyLevel_patientsT (t : SavedDB) (d : ParsedDataset) :
    (upsertStudyLevel t d).patientsT = t.patientsT := by
  unfold upsertStudyLevel; split <;> rfl

lemma upsertStudyLevel_seriesT (t : SavedDB) (d : ParsedDataset) :
    (upsertStudyLevel t d).seriesT = t.seriesT := by
  unfold upsertStudyLevel; split <;> rfl

lemma upsertStudyLevel_instancesT (t : SavedDB) (d : ParsedDataset) :
    (upsertStudyLevel t d).instancesT = t.instancesT := by
  unfold upsertStudyLevel; split <;> rfl

lemma upsertStudyLevel_tagValuesT (t : SavedDB) (d : ParsedDataset) :
    (upsertStudyLevel t d).tagValuesT = t.tagValuesT := by
  unfold upsertStudyLevel; split <;> rfl

lemma upsertSeriesLevel_seriesT (t : SavedDB) (d : ParsedDataset) :
    (upsertSeriesLevel t d).seriesT =
      if d.seriesInstanceUID = "" then t.seriesT
      else upsertBy SeriesRec.seriesUID mergeSeries t.seriesT (seriesOf d) := by
  unfold upsertSeriesLevel; split <;> rfl

lemma upsertSeriesLevel_patientsT (t : SavedDB) (d : ParsedDataset) :
    (upsertSeriesLevel t d).patientsT = t.patientsT := by
  unfold upsertSeriesLevel; split <;> rfl

lemma upsertSeriesLevel_studiesT (t : SavedDB) (d : ParsedDataset) :
    (upsertSeriesLevel t d).studiesT = t.studiesT := by
  unfold upsertSeriesLevel; split <;> rfl

lemma upsertSeriesLevel_instancesT (t : SavedDB) (d : ParsedDataset) :
    (upsertSeriesLevel t d).instancesT = t.instancesT := by
  unfold upsertSeriesLevel; split <;> rfl

lemma upsertSeriesLevel_tagValuesT (t : SavedDB) (d : ParsedDataset) :
    (upsertSeriesLevel t d).tagValuesT = t.tagValuesT := by
  unfold upsertSeriesLevel; split <;> rfl

lemma upsertInstanceLevel_instancesT (t : SavedDB) (d : ParsedDataset) (fn : Option FsPath)
    (dg : Option (List Nat)) :
    (upsertInstanceLevel t d fn dg).instancesT =
      if d.sopInstanceUID = "" then t.instancesT
      else upsertBy InstanceRec.sopInstanceUID mergeInstance t.instancesT (instanceOf d fn dg) := by
  unfold upsertInstanceLevel; split <;> rfl

lemma upsertInstanceLevel_patientsT (t : SavedDB) (d : ParsedDataset) (fn : Option FsPath)
    (dg : Option (List Nat)) : (upsertInstanceLevel t d fn dg).patientsT = t.patientsT := by
  unfold upsertInstanceLevel; split <;> rfl

lemma upsertInstanceLevel_studiesT (t : SavedDB) (d : ParsedDataset) (fn : Option FsPath)
    (dg : Option (List Nat)) : (upsertInstanceLevel t d fn dg).studiesT = t.studiesT := by
  unfold upsertInstanceLevel; split <;> rfl

lemma upsertInstanceLevel_seriesT (t : SavedDB) (d : ParsedDataset) (fn : Option FsPath)
    (dg : Option (List Nat)) : (upsertInstanceLevel t d fn dg).seriesT = t.seriesT := by
  unfold upsertInstanceLevel; split <;> rfl

lemma upsertInstanceLevel_tagValuesT (t : SavedDB) (d : ParsedDataset) (fn : Option FsPath)
    (dg : Option (List Nat)) : (upsertInstanceLevel t d fn dg).tagValuesT = t.tagValuesT := by
  unfold upsertInstanceLevel; split <;> rfl

lemma refreshTags_patientsT (t : SavedDB) (d : ParsedDataset) :
    (refreshTags t d).patientsT = t.patientsT := by
  unfold refreshTags; split <;> rfl

lemma refreshTags_studiesT (t : SavedDB) (d : ParsedDataset) :
    (refreshTags t d).studiesT = t.studiesT := by
  unfold refreshTags; split <;> rfl

lemma refreshTags_seriesT (t : SavedDB) (d : ParsedDataset) :
    (refreshTags t d).seriesT = t.seriesT := by
  unfold refreshTags; split <;> rfl

lemma refreshTags_instancesT (t : SavedDB) (d : ParsedDataset) :
    (refreshTags t d).instancesT = t.instancesT := by
  unfold refreshTags; split <;> rfl

lemma refreshTags_tagValuesT (t : SavedDB) (d : ParsedDataset) :
    (refreshTags t d).tagValuesT =
      if d.sopInstanceUID = "" then t.tagValuesT
      else t.tagValuesT.filter (fun tv => !decide (tv.sopInstanceUID = d.sopInstanceUID))
        ++ d.tags.map (fun pr => ⟨d.sopInstanceUID, pr.1, pr.2⟩) := by
  unfold refreshTags; split <;> rfl

lemma upsertLevels_patientsT (t : SavedDB) (d : ParsedDataset) (fn : Option FsPath)
    (dg : Option (List Nat)) :
    (upsertLevels t d fn dg).patientsT =
      if d.patientID = "" then t.patientsT
      else upsertBy PatientRec.patientID mergePatient t.patientsT (patientOf d) := by
  unfold upsertLevels
  rw [upsertInstanceLevel_patientsT, upsertSeriesLevel_patientsT, upsertStudyLevel_patientsT,
    upsertPatientLevel_patientsT]

lemma upsertLevels_studiesT (t : SavedDB) (d : ParsedDataset) (fn : Option FsPath)
    (dg : Option (List Nat)) :
    (upsertLevels t d fn dg).studiesT =
      if d.studyInstanceUID = "" then t.studiesT
      else upsertBy StudyRec.studyUID mergeStudy t.studiesT (studyOf d) := by
  unfold upsertLevels
  rw [upsertInstanceLevel_studiesT, upsertSeriesLevel_studiesT, upsertStudyLevel_studiesT,
    upsertPatientLevel_studiesT]

lemma upsertLevels_seriesT (t : SavedDB) (d : ParsedDataset) (fn : Option FsPath)
    (dg : Option (List Nat)) :
    (upsertLevels t d fn dg).seriesT =
      if d.seriesInstanceUID = "" then t.seriesT
      else upsertBy SeriesRec.seriesUID mergeSeries t.seriesT (seriesOf d) := by
  unfold upsertLevels
  rw [upsertInstanceLevel_seriesT, upsertSeriesLevel_seriesT, upsertStudyLevel_seriesT,
    upsertPatientLevel_seriesT]

lemma upsertLevels_instancesT (t : SavedDB) (d : ParsedDataset) (fn : Option FsPath)
    (dg : Option (List Nat)) :
    (upsertLevels t d fn dg).instancesT =
      if d.sopInstanceUID = "" then t.instancesT
      else upsertBy InstanceRec.sopInstanceUID mergeInstance t.instancesT (instanceOf d fn dg) := by
  unfold upsertLevels
  rw [upsertInstanceLevel_instancesT, upsertSeriesLevel_instancesT, upsertStudyLevel_instancesT,
    upsertPatientLevel_instancesT]

lemma upsertLevels_tagValuesT (t : SavedDB) (d : ParsedDataset) (fn : Option FsPath)
    (dg : Option (List Nat)) : (upsertLevels t d fn dg).tagValuesT = t.tagValuesT := by
  unfold upsertLevels
  rw [upsertInstanceLevel_tagValuesT, upsertSeriesLevel_tagValuesT, upsertStudyLevel_tagValuesT,
    upsertPatientLevel_tagValuesT]

/-! ## Second-application lemmas for the table transformations -/

lemma upsertBy_patient_again (l : List PatientRec) (r : PatientRec) :
    upsertBy PatientRec.patientID mergePatient (upsertBy PatientRec.patientID mergePatient l r) r
      = upsertBy PatientRec.patientID mergePatient l r :=
  upsertBy_again _ _ _ (fun x => mergePatient_key x r) (fun x => mergePatient_again x r)
    (mergePatient_self r) l

lemma upsertBy_study_again (l : List StudyRec) (r : StudyRec) :
    upsertBy StudyRec.studyUID mergeStudy (upsertBy StudyRec.studyUID mergeStudy l r) r
      = upsertBy StudyRec.studyUID mergeStudy l r :=
  upsertBy_again _ _ _ (fun x => mergeStudy_key x r) (fun x => mergeStudy_again x r)
    (mergeStudy_self r) l

lemma upsertBy_series_again (l : List SeriesRec) (r : SeriesRec) :
    upsertBy SeriesRec.seriesUID mergeSeries (upsertBy SeriesRec.seriesUID mergeSeries l r) r
      = upsertBy SeriesRec.seriesUID mergeSeries l r :=
  upsertBy_again _ _ _ (fun x => mergeSeries_key x r) (fun x => mergeSeries_again x r)
    (mergeSeries_self r) l

lemma upsertBy_instance_second (l : List InstanceRec) (d : ParsedDataset) (fn : Option FsPath)
    (dg : Option (List Nat)) :
    upsertBy InstanceRec.sopInstanceUID mergeInstance
        (upsertBy InstanceRec.sopInstanceUID mergeInstance l (instanceOf d fn dg))
        (instanceOf d none none)
      = upsertBy InstanceRec.sopInstanceUID mergeInstance l (instanceOf d fn dg) :=
  upsertBy_second InstanceRec.sopInstanceUID mergeInstance (instanceOf d fn dg)
    (instanceOf d none none) rfl (fun x => mergeInstance_key x (instanceOf d fn dg))
    (fun x => mergeInstance_again x (instanceOf d fn dg) (instanceOf d none none) rfl rfl rfl)
    (mergeInstance_absorb (instanceOf d fn dg) (instanceOf d none none) rfl rfl rfl) l

lemma upsertLevels_second (t : SavedDB) (d : ParsedDataset) (fn : Option FsPath)
    (dg : Option (List Nat)) :
    upsertLevels (upsertLevels t d fn dg) d none none = upsertLevels t d fn dg := by
  apply savedDB_eq
  · rw [upsertLevels_patientsT, upsertLevels_patientsT]
    by_cases h : d.patientID = ""
    · simp [h]
    · simp [h, upsertBy_patient_again]
  · rw [upsertLevels_studiesT, upsertLevels_studiesT]
    by_cases h : d.studyInstanceUID = ""
    · simp [h]
    · simp [h, upsertBy_study_again]
  · rw [upsertLevels_seriesT, upsertLevels_seriesT]
    by_cases h : d.seriesInstanceUID = ""
    · simp [h]
    · simp [h, upsertBy_series_again]
  · rw [upsertLevels_instancesT, upsertLevels_instancesT]
    by_cases h : d.sopInstanceUID = ""
    · simp [h]
    · simp [h, upsertBy_instance_second]
  · rw [upsertLevels_tagValuesT, upsertLevels_tagValuesT]

lemma upsertLevels_refreshTags (t : SavedDB) (d : ParsedDataset) (fn : Option FsPath)
    (dg : Option (List Nat)) :
    upsertLevels (refreshTags t d) d fn dg = refreshTags (upsertLevels t d fn dg) d := by
  apply savedDB_eq
  · rw [upsertLevels_patientsT, refreshTags_patientsT, refreshTags_patientsT,
      upsertLevels_patientsT]
  · rw [upsertLevels_studiesT, refreshTags_studiesT, refreshTags_studiesT, upsertLevels_studiesT]
  · rw [upsertLevels_seriesT, refreshTags_seriesT, refreshTags_seriesT, upsertLevels_seriesT]
  · rw [upsertLevels_instancesT, refreshTags_instancesT, refreshTags_instancesT,
      upsertLevels_instancesT]
  · rw [upsertLevels_tagValuesT, refreshTags_tagValuesT, refreshTags_tagValuesT,
      upsertLevels_tagValuesT]

lemma refreshTags_idem (t : SavedDB) (d : ParsedDataset) :
    refreshTags (refreshTags t d) d = refreshTags t d := by
  apply savedDB_eq
  · rw [refreshTags_patientsT, refreshTags_patientsT]
  · rw [refreshTags_studiesT, refreshTags_studiesT]
  · rw [refreshTags_seriesT, refreshTags_seriesT]
  · rw [refreshTags_instancesT, refreshTags_instancesT]
  · rw [refreshTags_tagValuesT, refreshTags_tagValuesT]
    by_cases h : d.sopInstanceUID = ""
    · simp [h]
    · simp only [h, if_false]
      rw [List.filter_append, List.filter_filter]
      have h1 : (List.filter (fun a =>
          (!decide (a.sopInstanceUID = d.sopInstanceUID)) &&
            !decide (a.sopInstanceUID = d.sopInstanceUID)) t.tagValuesT)
          = List.filter (fun a => !decide (a.sopInstanceUID = d.sopInstanceUID)) t.tagValuesT := by
        apply List.filter_congr
        intro x _
        cases hx : decide (x.sopInstanceUID = d.sopInstanceUID) <;> rfl
      have h2 : (List.filter (fun tv => !decide (tv.sopInstanceUID = d.sopInstanceUID))
          (d.tags.map (fun pr => (⟨d.sopInstanceUID, pr.1, pr.2⟩ : TagValueRec)))) = [] := by
        rw [List.filter_eq_nil_iff]
        intro a ha
        rcases List.mem_map.mp ha with ⟨pr, _, hpr⟩
        simp [← hpr]
      rw [h1, h2, List.append_nil]

/-! ## Path disjointness -/

lemma instPath_ne_thumbPath (root : FsPath) (a b c a2 b2 c2 : String) :
    ¬ resolveInstancePath root a b c = resolveThumbnailPath root a2 b2 c2 := by
  intro h
  unfold resolveInstancePath resolveThumbnailPath at h
  have h2 := List.append_cancel_left h
  have h3 : some "dicom" = some "thumbs" := congrArg List.head? h2
  have h4 : "dicom" = "thumbs" := Option.some.inj h3
  exact absurd h4 (by decide)

/-! ## Helper lemmas: insertCore -/

lemma insertCore_isOpen (db : DBState) (fs : List FSFile) (d : ParsedDataset) (sf gt : Bool) :
    (insertCore db fs d sf gt).1.isOpen = db.isOpen := rfl

lemma insertCore_inMemory (db : DBState) (fs : List FSFile) (d : ParsedDataset) (sf gt : Bool) :
    (insertCore db fs d sf gt).1.inMemory = db.inMemory := rfl

lemma insertCore_databaseDir (db : DBState) (fs : List FSFile) (d : ParsedDataset) (sf gt : Bool) :
    (insertCore db fs d sf gt).1.databaseDir = db.databaseDir := rfl

lemma insertCore_events (db : DBState) (fs : List FSFile) (d : ParsedDataset) (sf gt : Bool) :
    (insertCore db fs d sf gt).1.events
      = db.events ++ [DBEvent.rowsCommitted, DBEvent.databaseChanged] := rfl

lemma insertCore_tables (db : DBState) (fs : List FSFile) (d : ParsedDataset) (sf gt : Bool) :
    (insertCore db fs d sf gt).1.tables
      = refreshTags
          (upsertLevels db.tables d (storedFilename db fs d sf) (storedDigest db fs d sf)) d := rfl

lemma insertCore_fs (db : DBState) (fs : List FSFile) (d : ParsedDataset) (sf gt : Bool) :
    (insertCore db fs d sf gt).2
      = (if doThumbFlag db d gt
         then writeFile
            (if doStoreFlag db fs d sf then writeFile fs (instPath db d) (d.content.getD []) else fs)
            (thumbPath db d) (thumbnailBytes (d.content.getD []))
         else (if doStoreFlag db fs d sf
               then writeFile fs (instPath db d) (d.content.getD []) else fs)) := rfl

lemma instPath_insertCore (db : DBState) (fs : List FSFile) (d d2 : ParsedDataset) (sf gt : Bool) :
    instPath (insertCore db fs d sf gt).1 d2 = instPath db d2 := rfl

lemma thumbPath_insertCore (db : DBState) (fs : List FSFile) (d d2 : ParsedDataset) (sf gt : Bool) :
    thumbPath (insertCore db fs d sf gt).1 d2 = thumbPath db d2 := rfl

lemma doThumbFlag_insertCore (db : DBState) (fs : List FSFile) (d d2 : ParsedDataset)
    (sf gt gt2 : Bool) : doThumbFlag (insertCore db fs d sf gt).1 d2 gt2 = doThumbFlag db d2 gt2 := rfl

lemma doStoreFlag_parts {db : DBState} {fs : List FSFile} {d : ParsedDataset} {sf : Bool}
    (h : doStoreFlag db fs d sf = true) :
    sf = true ∧ db.inMemory = false ∧ ¬ d.sopInstanceUID = "" ∧ d.content.isSome = true
      ∧ fileExistsAndUpToDate db fs (instPath db d) = false := by
  unfold doStoreFlag at h
  simp only [Bool.and_eq_true, Bool.not_eq_true', decide_eq_true_eq] at h
  exact ⟨h.1.1.1.1, h.1.1.1.2, h.1.1.2, h.1.2, h.2⟩

/-- After a storing insert, the destination is up to date. -/
lemma upToDate_after_store (db : DBState) (fs : List FSFile) (d : ParsedDataset) (sf gt : Bool)
    (hflag : doStoreFlag db fs d sf = true) :
    fileExistsAndUpToDate (insertCore db fs d sf gt).1 (insertCore db fs d sf gt).2
      (instPath db d) = true := by
  obtain ⟨hsf, hm, hsop, hcs, hupd⟩ := doStoreFlag_parts hflag
  obtain ⟨bytes, hc⟩ := Option.isSome_iff_exists.mp hcs
  have hgd : d.content.getD [] = bytes := by rw [hc]; rfl
  have hread : readFile (insertCore db fs d sf gt).2 (instPath db d) = some bytes := by
    rw [insertCore_fs, if_pos hflag, hgd]
    by_cases ht : doThumbFlag db d gt = true
    · rw [if_pos ht]
      by_cases he : instPath db d = thumbPath db d
      · rw [← he, readFile_writeFile_same, thumbnailBytes]
      · rw [readFile_writeFile_other _ _ _ _ he, readFile_writeFile_same]
    · rw [if_neg ht, readFile_writeFile_same]
  unfold fileExistsAndUpToDate
  rw [hread]
  rw [insertCore_tables, refreshTags_instancesT, upsertLevels_instancesT,
    if_neg hsop]
  have hfn : storedFilename db fs d sf = some (instPath db d) := by
    unfold storedFilename; rw [if_pos hflag]
  have hdg : storedDigest db fs d sf = some bytes := by
    unfold storedDigest; rw [if_pos hflag, hc]
  rw [hfn, hdg]
  apply upsertBy_any_of
  · simp [instanceOf]
  · intro x
    simp [mergeInstance, instanceOf, preferNewOpt]

/-- The storage step of a repeated identical insert is always skipped. -/
lemma doStoreFlag_second (db : DBState) (fs : List FSFile) (d : ParsedDataset) (sf gt : Bool) :
    doStoreFlag (insertCore db fs d sf gt).1 (insertCore db fs d sf gt).2 d sf = false := by
  by_cases hflag : doStoreFlag db fs d sf = true
  · have h := upToDate_after_store db fs d sf gt hflag
    unfold doStoreFlag
    rw [instPath_insertCore, h]
    simp
  · by_cases hsf : sf = true
    · by_cases hm : db.inMemory = false
      · by_cases hsop : d.sopInstanceUID = ""
        · unfold doStoreFlag; simp [hsop]
        · by_cases hcs : d.content.isSome = true
          · -- every component is true, so the first check found the file up to date
            have hupd : fileExistsAndUpToDate db fs (instPath db d) = true := by
              unfold doStoreFlag at hflag
              simp only [hsf, hm, hsop, hcs, Bool.not_false, Bool.true_and, Bool.and_true,
                decide_not, decide_eq_true_eq, not_false_eq_true, decide_true_eq_true] at hflag
              simpa using hflag
            have hread2 : readFile (insertCore db fs d sf gt).2 (instPath db d)
                = readFile fs (instPath db d) := by
              rw [insertCore_fs, if_neg hflag]
              by_cases ht : doThumbFlag db d gt = true
              · rw [if_pos ht]
                exact readFile_writeFile_other fs (instPath db d) (thumbPath db d) _
                  (instPath_ne_thumbPath db.databaseDir _ _ _ _ _ _)
              · rw [if_neg ht]
            have h2 : fileExistsAndUpToDate (insertCore db fs d sf gt).1
                (insertCore db fs d sf gt).2 (instPath db d) = true := by
              unfold fileExistsAndUpToDate at hupd ⊢
              rw [hread2]
              cases hr : readFile fs (instPath db d) with
              | none => rw [hr] at hupd; cases hupd
              | some c =>
                rw [hr] at hupd
                rw [insertCore_tables, refreshTags_instancesT, upsertLevels_instancesT,
                  if_neg hsop]
                have hfn : storedFilename db fs d sf = none := by
                  unfold storedFilename; rw [if_neg hflag]
                have hdg : storedDigest db fs d sf = none := by
                  unfold storedDigest; rw [if_neg hflag]
                rw [hfn, hdg]
                apply upsertBy_preserves_any _ _ _ _ _ _ hupd
                intro x hx
                have hmf : (mergeInstance x (instanceOf d none none)).filename = x.filename := rfl
                have hmd : (mergeInstance x (instanceOf d none none)).digest = x.digest := rfl
                rw [decide_eq_true_eq] at hx ⊢
                rw [hmf, hmd]
                exact hx
            unfold doStoreFlag
            rw [instPath_insertCore, h2]
            simp
          · unfold doStoreFlag
            simp only [Bool.not_eq_true] at hcs
            simp [hcs]
      · unfold doStoreFlag
        simp only [Bool.not_eq_false] at hm
        rw [insertCore_inMemory, hm]
        simp
    · unfold doStoreFlag
      simp only [Bool.not_eq_true] at hsf
      simp [hsf]

/-- Running the identical `insertCore` a second time changes neither the
tables nor the filesystem. -/
lemma insertCore_second (db : DBState) (fs : List FSFile) (d : ParsedDataset) (sf gt : Bool) :
    (insertCore (insertCore db fs d sf gt).1 (insertCore db fs d sf gt).2 d sf gt).1.tables
      = (insertCore db fs d sf gt).1.tables
  ∧ (insertCore (insertCore db fs d sf gt).1 (insertCore db fs d sf gt).2 d sf gt).2
      = (insertCore db fs d sf gt).2 := by
  have hflag2 := doStoreFlag_second db fs d sf gt
  have hfn2 : storedFilename (insertCore db fs d sf gt).1 (insertCore db fs d sf gt).2 d sf
      = none := by
    unfold storedFilename; rw [if_neg (by rw [hflag2]; exact Bool.false_ne_true)]
  have hdg2 : storedDigest (insertCore db fs d sf gt).1 (insertCore db fs d sf gt).2 d sf
      = none := by
    unfold storedDigest; rw [if_neg (by rw [hflag2]; exact Bool.false_ne_true)]
  constructor
  · rw [insertCore_tables (insertCore db fs d sf gt).1 (insertCore db fs d sf gt).2 d sf gt,
      hfn2, hdg2, insertCore_tables db fs d sf gt, upsertLevels_refreshTags,
      upsertLevels_second, refreshTags_idem]
  · rw [insertCore_fs (insertCore db fs d sf gt).1 (insertCore db fs d sf gt).2 d sf gt]
    simp only [hflag2, doThumbFlag_insertCore, thumbPath_insertCore, Bool.false_eq_true,
      if_false]
    by_cases ht : doThumbFlag db d gt = true
    · rw [if_pos ht]
      have hfs : (insertCore db fs d sf gt).2
          = writeFile (if doStoreFlag db fs d sf
              then writeFile fs (instPath db d) (d.content.getD []) else fs)
            (thumbPath db d) (thumbnailBytes (d.content.getD [])) := by
        rw [insertCore_fs, if_pos ht]
      rw [hfs, writeFile_writeFile]
    · rw [if_neg ht]

/-! ## Helper lemmas: the insert entry point -/

lemma insert_not_open (db : DBState) (fs : List FSFile) (src : Option ParsedDataset)
    (sf gt ch : Bool) (h : db.isOpen = false) :
    insert db fs src sf gt ch
      = ({ db with lastError := "database not open" }, fs, InsertStatus.notOpen) := by
  unfold insert; rw [if_pos h]

lemma insert_unparsable (db : DBState) (fs : List FSFile) (sf gt ch : Bool)
    (h : db.isOpen = true) :
    insert db fs none sf gt ch
      = ({ db with lastError := "unparsable source" }, fs, InsertStatus.parseFailed) := by
  unfold insert; rw [h]; rfl

lemma insert_integrity (db : DBState) (fs : List FSFile) (d : ParsedDataset) (sf gt ch : Bool)
    (h : db.isOpen = true)
    (hcond : ch = false ∧ ¬ d.sopInstanceUID = "" ∧ seriesExists db d.seriesInstanceUID = false) :
    insert db fs (some d) sf gt ch
      = ({ db with lastError := "integrity error: series not found" }, fs,
         InsertStatus.integrityFailed) := by
  unfold insert
  rw [h]
  simp only [Bool.true_eq_false, if_false]
  rw [if_pos hcond]

lemma insert_ok (db : DBState) (fs : List FSFile) (d : ParsedDataset) (sf gt ch : Bool)
    (h : db.isOpen = true)
    (hcond : ¬ (ch = false ∧ ¬ d.sopInstanceUID = "" ∧ seriesExists db d.seriesInstanceUID = false)) :
    insert db fs (some d) sf gt ch
      = ((insertCore db fs d sf gt).1, (insertCore db fs d sf gt).2, InsertStatus.inserted) := by
  unfold insert
  rw [h]
  simp only [Bool.true_eq_false, if_false]
  rw [if_neg hcond]

lemma insert_success_cond (db : DBState) (fs : List FSFile) (d : ParsedDataset) (sf gt ch : Bool)
    (hopen : db.isOpen = true)
    (hsucc : (insert db fs (some d) sf gt ch).2.2 = InsertStatus.inserted) :
    ¬ (ch = false ∧ ¬ d.sopInstanceUID = "" ∧ seriesExists db d.seriesInstanceUID = false) := by
  intro hcond
  rw [insert_integrity db fs d sf gt ch hopen hcond] at hsucc
  exact InsertStatus.noConfusion hsucc

lemma seriesExists_insertCore (db : DBState) (fs : List FSFile) (d : ParsedDataset)
    (sf gt : Bool) (s : String) (h : seriesExists db s = true) :
    seriesExists (insertCore db fs d sf gt).1 s = true := by
  unfold seriesExists at h ⊢
  rw [insertCore_tables, refreshTags_seriesT, upsertLevels_seriesT]
  by_cases hs : d.seriesInstanceUID = ""
  · rw [if_pos hs]; exact h
  · rw [if_neg hs]
    apply upsertBy_preserves_any _ _ _ _ _ _ h
    intro x hx
    have hk : (mergeSeries x (seriesOf d)).seriesUID = x.seriesUID := rfl
    rw [decide_eq_true_eq] at hx ⊢
    rw [hk]
    exact hx

/-- C1: inserting byte-identical content for an already indexed object a
second time is a no-op: the second insert leaves every index table, the
filesystem and the length of `patients()` unchanged, and still reports
success. -/
theorem ctk_c1_insert_idempotent (db : DBState) (fs : List FSFile) (d : ParsedDataset)
    (sf gt ch : Bool) (hopen : db.isOpen = true)
    (hsucc : (insert db fs (some d) sf gt ch).2.2 = InsertStatus.inserted) :
    (insert (insert db fs (some d) sf gt ch).1 (insert db fs (some d) sf gt ch).2.1
        (some d) sf gt ch).1.tables = (insert db fs (some d) sf gt ch).1.tables
    ∧ (insert (insert db fs (some d) sf gt ch).1 (insert db fs (some d) sf gt ch).2.1
        (some d) sf gt ch).2.1 = (insert db fs (some d) sf gt ch).2.1
    ∧ (patients (insert (insert db fs (some d) sf gt ch).1 (insert db fs (some d) sf gt ch).2.1
        (some d) sf gt ch).1).length
      = (patients (insert db fs (some d) sf gt ch).1).length
    ∧ (insert (insert db fs (some d) sf gt ch).1 (insert db fs (some d) sf gt ch).2.1
        (some d) sf gt ch).2.2 = InsertStatus.inserted := by
  have hcond := insert_success_cond db fs d sf gt ch hopen hsucc
  have h1 := insert_ok db fs d sf gt ch hopen hcond
  have hopen2 : (insertCore db fs d sf gt).1.isOpen = true := by
    rw [insertCore_isOpen]; exact hopen
  have hcond2 : ¬ (ch = false ∧ ¬ d.sopInstanceUID = ""
      ∧ seriesExists (insertCore db fs d sf gt).1 d.seriesInstanceUID = false) := by
    rintro ⟨hch, hsop, hse⟩
    apply hcond
    refine ⟨hch, hsop, ?_⟩
    cases hdb : seriesExists db d.seriesInstanceUID with
    | false => rfl
    | true =>
      rw [seriesExists_insertCore db fs d sf gt _ hdb] at hse
      cases hse
  have h2 := insert_ok (insertCore db fs d sf gt).1 (insertCore db fs d sf gt).2 d sf gt ch
    hopen2 hcond2
  obtain ⟨ht, hf⟩ := insertCore_second db fs d sf gt
  rw [h1]
  dsimp only
  rw [h2]
  dsimp only
  refine ⟨ht, hf, ?_, rfl⟩
  unfold patients
  rw [ht]

/-- C2: an `insert` whose source is unparsable fails and commits nothing:
every index table, the filesystem and the event trace are exactly as
before the call. -/
theorem ctk_c2_unparsable_atomic (db : DBState) (fs : List FSFile) (sf gt ch : Bool) :
    ¬ (insert db fs none sf gt ch).2.2 = InsertStatus.inserted
    ∧ (insert db fs none sf gt ch).1.tables = db.tables
    ∧ (insert db fs none sf gt ch).2.1 = fs
    ∧ (insert db fs none sf gt ch).1.events = db.events := by
  by_cases h : db.isOpen = false
  · rw [insert_not_open db fs none sf gt ch h]
    exact ⟨fun hc => InsertStatus.noConfusion hc, rfl, rfl, rfl⟩
  · have h2 : db.isOpen = true := by
      cases hb : db.isOpen with
      | false => exact absurd hb h
      | true => rfl
    rw [insert_unparsable db fs sf gt ch h2]
    exact ⟨fun hc => InsertStatus.noConfusion hc, rfl, rfl, rfl⟩

/-- C7: a successful top-level `insert` emits `databaseChanged` exactly once
among its newly appended events, strictly after the commit of its index
rows; a failed `insert` emits no notification at all. -/
theorem ctk_c7_notification_once (db : DBState) (fs : List FSFile) (src : Option ParsedDataset)
    (sf gt ch : Bool) :
    ((insert db fs src sf gt ch).2.2 = InsertStatus.inserted →
      (((insert db fs src sf gt ch).1.events.drop db.events.length).count
          DBEvent.databaseChanged = 1
       ∧ ∃ i j, i < j
          ∧ ((insert db fs src sf gt ch).1.events.drop db.events.length).get? i
              = some DBEvent.rowsCommitted
          ∧ ((insert db fs src sf gt ch).1.events.drop db.events.length).get? j
              = some DBEvent.databaseChanged))
    ∧ (¬ (insert db fs src sf gt ch).2.2 = InsertStatus.inserted →
      ((insert db fs src sf gt ch).1.events.drop db.events.length).count
          DBEvent.databaseChanged = 0) := by
  by_cases hopen : db.isOpen = false
  · rw [insert_not_open db fs src sf gt ch hopen]
    constructor
    · intro hc; exact InsertStatus.noConfusion hc
    · intro _
      have he : ({ db with lastError := "database not open" } : DBState).events = db.events := rfl
      dsimp only
      rw [he, List.drop_length]
      rfl
  · have hopen2 : db.isOpen = true := by
      cases hb : db.isOpen with
      | false => exact absurd hb hopen
      | true => rfl
    cases src with
    | none =>
      rw [insert_unparsable db fs sf gt ch hopen2]
      constructor
      · intro hc; exact InsertStatus.noConfusion hc
      · intro _
        have he : ({ db with lastError := "unparsable source" } : DBState).events = db.events := rfl
        dsimp only
        rw [he, List.drop_length]
        rfl
    | some d =>
      by_cases hcond : (ch = false ∧ ¬ d.sopInstanceUID = ""
          ∧ seriesExists db d.seriesInstanceUID = false)
      · rw [insert_integrity db fs d sf gt ch hopen2 hcond]
        constructor
        · intro hc; exact InsertStatus.noConfusion hc
        · intro _
          have he : ({ db with lastError := "integrity error: series not found" } : DBState).events
              = db.events := rfl
          dsimp only
          rw [he, List.drop_length]
          rfl
      · rw [insert_ok db fs d sf gt ch hopen2 hcond]
        constructor
        · intro _
          dsimp only
          rw [insertCore_events, List.drop_left]
          refine ⟨rfl, 0, 1, by decide, rfl, rfl⟩
        · intro hc; exact absurd rfl hc

/-! ## In-memory isolation -/

lemma insert_inMemory_step (db : DBState) (fs : List FSFile) (src : Option ParsedDataset)
    (sf gt ch : Bool) (hm : db.inMemory = true)
    (hf : ∀ i ∈ db.tables.instancesT, i.filename = none) :
    (insert db fs src sf gt ch).1.inMemory = true
    ∧ (insert db fs src sf gt ch).2.1 = fs
    ∧ ∀ i ∈ (insert db fs src sf gt ch).1.tables.instancesT, i.filename = none := by
  by_cases hopen : db.isOpen = false
  · rw [insert_not_open db fs src sf gt ch hopen]
    exact ⟨hm, rfl, hf⟩
  · have hopen2 : db.isOpen = true := by
      cases hb : db.isOpen with
      | false => exact absurd hb hopen
      | true => rfl
    cases src with
    | none =>
      rw [insert_unparsable db fs sf gt ch hopen2]
      exact ⟨hm, rfl, hf⟩
    | some d =>
      by_cases hcond : (ch = false ∧ ¬ d.sopInstanceUID = ""
          ∧ seriesExists db d.seriesInstanceUID = false)
      · rw [insert_integrity db fs d sf gt ch hopen2 hcond]
        exact ⟨hm, rfl, hf⟩
      · rw [insert_ok db fs d sf gt ch hopen2 hcond]
        dsimp only
        have hsflag : doStoreFlag db fs d sf = false := by
          unfold doStoreFlag; rw [hm]; simp
        have htflag : doThumbFlag db d gt = false := by
          unfold doThumbFlag; rw [hm]; simp
        refine ⟨by rw [insertCore_inMemory]; exact hm, ?_, ?_⟩
        · rw [insertCore_fs]
          simp only [hsflag, htflag, Bool.false_eq_true, if_false]
        · rw [insertCore_tables, refreshTags_instancesT, upsertLevels_instancesT]
          by_cases hsop : d.sopInstanceUID = ""
          · rw [if_pos hsop]; exact hf
          · rw [if_neg hsop]
            intro i hi
            have hfn : storedFilename db fs d sf = none := by
              unfold storedFilename
              rw [if_neg (by rw [hsflag]; exact Bool.false_ne_true)]
            rcases upsertBy_mem hi with h1 | h2 | ⟨x, hx, he⟩
            · exact hf i h1
            · rw [h2]
              show storedFilename db fs d sf = none
              exact hfn
            · rw [he]
              show preferNewOpt x.filename (storedFilename db fs d sf) = none
              rw [hfn]
              exact hf x hx

lemma insertMany_inMemory (calls : List InsertCall) :
    ∀ (db : DBState) (fs : List FSFile), db.inMemory = true →
    (∀ i ∈ db.tables.instancesT, i.filename = none) →
    (insertMany db fs calls).2 = fs
    ∧ (insertMany db fs calls).1.inMemory = true
    ∧ (∀ i ∈ (insertMany db fs calls).1.tables.instancesT, i.filename = none) := by
  induction calls with
  | nil => intro db fs hm hf; exact ⟨rfl, hm, hf⟩
  | cons c cs ih =>
    intro db fs hm hf
    obtain ⟨h1, h2, h3⟩ :=
      insert_inMemory_step db fs c.src c.storeFile c.genThumb c.createHierarchy hm hf
    have hrec := ih (insert db fs c.src c.storeFile c.genThumb c.createHierarchy).1
      (insert db fs c.src c.storeFile c.genThumb c.createHierarchy).2.1 h1 h3
    refine ⟨?_, hrec.2.1, hrec.2.2⟩
    show (insertMany (insert db fs c.src c.storeFile c.genThumb c.createHierarchy).1
      (insert db fs c.src c.storeFile c.genThumb c.createHierarchy).2.1 cs).2 = fs
    rw [hrec.1, h2]

/-- C3: after opening with the `":memory:"` marker, any sequence of inserts
(with any flags) writes no file at all and no instance row ever carries a
persisted path. -/
theorem ctk_c3_inMemory_no_files (disk : List (String × SavedDB)) (dir : FsPath)
    (fs : List FSFile) (calls : List InsertCall) :
    (insertMany (openDatabase disk ":memory:" dir).1 fs calls).2 = fs
    ∧ ∀ i ∈ (insertMany (openDatabase disk ":memory:" dir).1 fs calls).1.tables.instancesT,
        i.filename = none := by
  have hm : (openDatabase disk ":memory:" dir).1.inMemory = true := by
    unfold openDatabase; rw [if_pos rfl]
  have hf : ∀ i ∈ (openDatabase disk ":memory:" dir).1.tables.instancesT, i.filename = none := by
    intro i hi
    unfold openDatabase at hi
    rw [if_pos rfl] at hi
    exact absurd hi (by intro hc; cases hc)
  obtain ⟨ha, _, hb⟩ := insertMany_inMemory calls (openDatabase disk ":memory:" dir).1 fs hm hf
  exact ⟨ha, hb⟩

/-! ## Up-to-date detection: claim C5 -/

/-- C5: `fileExistsAndUpToDate` is true immediately after a successful
storing insert, becomes false after the underlying file's content changes
without re-insertion, and is false whenever no indexed instance owns the
path. -/
theorem ctk_c5_fileExistsAndUpToDate (db : DBState) (fs : List FSFile) (d : ParsedDataset)
    (gt : Bool) (bytes : List Nat)
    (hopen : db.isOpen = true) (hsop : ¬ d.sopInstanceUID = "")
    (hmem : db.inMemory = false) (hc : d.content = some bytes)
    (hfresh : ∀ i ∈ db.tables.instancesT, ¬ i.filename = some (instPath db d))
    (hno : fileExistsAndUpToDate db fs (instPath db d) = false) :
    fileExistsAndUpToDate (insert db fs (some d) true gt true).1
        (insert db fs (some d) true gt true).2.1 (instPath db d) = true
    ∧ (∀ newBytes, ¬ newBytes = bytes →
        fileExistsAndUpToDate (insert db fs (some d) true gt true).1
          (writeFile (insert db fs (some d) true gt true).2.1 (instPath db d) newBytes)
          (instPath db d) = false)
    ∧ (∀ (db2 : DBState) (fs2 : List FSFile) (p : FsPath),
        (∀ i ∈ db2.tables.instancesT, ¬ i.filename = some p) →
        fileExistsAndUpToDate db2 fs2 p = false) := by
  have hcond : ¬ (true = false ∧ ¬ d.sopInstanceUID = ""
      ∧ seriesExists db d.seriesInstanceUID = false) := fun hcon => Bool.noConfusion hcon.1
  rw [insert_ok db fs d true gt true hopen hcond]
  dsimp only
  have hflag : doStoreFlag db fs d true = true := by
    unfold doStoreFlag
    rw [hmem, hno, hc]
    simp [hsop]
  have hfn : storedFilename db fs d true = some (instPath db d) := by
    unfold storedFilename; rw [if_pos hflag]
  have hdg : storedDigest db fs d true = some bytes := by
    unfold storedDigest; rw [if_pos hflag, hc]
  refine ⟨upToDate_after_store db fs d true gt hflag, ?_, ?_⟩
  · intro nb hnb
    unfold fileExistsAndUpToDate
    rw [readFile_writeFile_same]
    rw [insertCore_tables, refreshTags_instancesT, upsertLevels_instancesT, if_neg hsop,
      hfn, hdg]
    rw [List.any_eq_false]
    intro i hi hq
    rw [decide_eq_true_eq] at hq
    rcases upsertBy_mem hi with h1 | h2 | ⟨x, hx, he⟩
    · exact hfresh i h1 hq.1
    · rw [h2] at hq
      exact hnb (Option.some.inj hq.2).symm
    · rw [he] at hq
      have hdg2 : (mergeInstance x (instanceOf d (some (instPath db d)) (some bytes))).digest
          = some bytes := rfl
      rw [hdg2] at hq
      exact hnb (Option.some.inj hq.2).symm
  · intro db2 fs2 p hown
    unfold fileExistsAndUpToDate
    cases hr : readFile fs2 p with
    | none => rfl
    | some c =>
      rw [List.any_eq_false]
      intro i hi hq
      rw [decide_eq_true_eq] at hq
      exact hown i hi hq.1

/-! ## Tag-value queries: claims C6 and C10 -/

lemma findTagValue_append_of (l1 l2 : List TagValueRec) (s : String) (tg : DicomTag)
    (h : ∀ tv ∈ l1, ¬ tv.sopInstanceUID = s) :
    findTagValue (l1 ++ l2) s tg = findTagValue l2 s tg := by
  induction l1 with
  | nil => rfl
  | cons tv tvs ih =>
    have hs : ¬ tv.sopInstanceUID = s := h tv (List.mem_cons_self tv tvs)
    have hcond : ¬ (tv.sopInstanceUID = s ∧ tv.tg = tg) := fun hcon => hs hcon.1
    show (if tv.sopInstanceUID = s ∧ tv.tg = tg then some tv.value
          else findTagValue (tvs ++ l2) s tg) = findTagValue l2 s tg
    rw [if_neg hcond]
    exact ih (fun x hx => h x (List.mem_cons_of_mem tv hx))

lemma findTagValue_map (tags : List (DicomTag × String)) (s : String) (tg : DicomTag) :
    findTagValue (tags.map (fun pr => (⟨s, pr.1, pr.2⟩ : TagValueRec))) s tg
      = lookupTag tags tg := by
  induction tags with
  | nil => rfl
  | cons pr prs ih =>
    show (if s = s ∧ pr.1 = tg then some pr.2
          else findTagValue (prs.map (fun pr => (⟨s, pr.1, pr.2⟩ : TagValueRec))) s tg)
        = (if pr.1 = tg then some pr.2 else lookupTag prs tg)
    by_cases h : pr.1 = tg
    · rw [if_pos ⟨rfl, h⟩, if_pos h]
    · rw [if_neg (fun hcon => h hcon.2), if_neg h]
      exact ih

/-- C6: after inserting a dataset, `instanceValue` returns exactly the
value the dataset carried for a present tag and the empty-string sentinel
for an absent tag. -/
theorem ctk_c6_instanceValue_roundtrip (db : DBState) (fs : List FSFile) (d : ParsedDataset)
    (sf gt : Bool) (g e : Nat) (v : String)
    (hopen : db.isOpen = true) (hsop : ¬ d.sopInstanceUID = "") :
    (datasetTagValue d ⟨g, e⟩ = some v →
      instanceValue (insert db fs (some d) sf gt true).1 d.sopInstanceUID g e = v)
    ∧ (datasetTagValue d ⟨g, e⟩ = none →
      instanceValue (insert db fs (some d) sf gt true).1 d.sopInstanceUID g e = "") := by
  have hcond : ¬ (true = false ∧ ¬ d.sopInstanceUID = ""
      ∧ seriesExists db d.seriesInstanceUID = false) := fun hcon => Bool.noConfusion hcon.1
  rw [insert_ok db fs d sf gt true hopen hcond]
  dsimp only
  have htv : (insertCore db fs d sf gt).1.tables.tagValuesT
      = db.tables.tagValuesT.filter (fun tv => !decide (tv.sopInstanceUID = d.sopInstanceUID))
        ++ d.tags.map (fun pr => ⟨d.sopInstanceUID, pr.1, pr.2⟩) := by
    rw [insertCore_tables, refreshTags_tagValuesT, if_neg hsop, upsertLevels_tagValuesT]
  have h1 : ∀ tv ∈ db.tables.tagValuesT.filter
      (fun tv => !decide (tv.sopInstanceUID = d.sopInstanceUID)),
      ¬ tv.sopInstanceUID = d.sopInstanceUID := by
    intro tv hv
    have h2 := (List.mem_filter.mp hv).2
    rw [Bool.not_eq_true'] at h2
    exact of_decide_eq_false h2
  have hfind : findTagValue (insertCore db fs d sf gt).1.tables.tagValuesT
      d.sopInstanceUID ⟨g, e⟩ = lookupTag d.tags ⟨g, e⟩ := by
    rw [htv, findTagValue_append_of _ _ _ _ h1, findTagValue_map]
  constructor
  · intro hv
    unfold instanceValue
    rw [hfind]
    unfold datasetTagValue at hv
    rw [hv]
    rfl
  · intro hv
    unfold instanceValue
    rw [hfind]
    unfold datasetTagValue at hv
    rw [hv]
    rfl

/-- C10: whenever `tagToGroupElement` parses a string key, the string-keyed
overloads of `instanceValue` and `fileValue` agree with the
(group,element) overloads. -/
theorem ctk_c10_tag_overload_consistency (db : DBState) (sop : String) (p : FsPath)
    (tg : String) (g e : Nat) (h : tagToGroupElement tg = some (g, e)) :
    instanceValueTag db sop tg = instanceValue db sop g e
    ∧ fileValueTag db p tg = fileValue db p g e := by
  constructor
  · unfold instanceValueTag
    rw [h]
  · unfold fileValueTag
    rw [h]

/-! ## Schema & Connection Manager: claim C8 -/

/-- C8: opening an existing database file is a plain connect -- the stored
tables are loaded unchanged and initialization does not run; the
(destructive) initialization runs only for a missing target or the
`":memory:"` marker, or through an explicit `initializeDatabase` call. -/
theorem ctk_c8_open_existing_no_init (disk : List (String × SavedDB)) (f : String)
    (dir : FsPath) (saved : SavedDB) (hm : ¬ f = ":memory:")
    (h : lookupSaved disk f = some saved) :
    (openDatabase disk f dir).1.tables = saved
    ∧ (openDatabase disk f dir).1.isOpen = true
    ∧ ¬ DBEvent.initialized ∈ (openDatabase disk f dir).1.events
    ∧ (openDatabase disk f dir).2 = disk
    ∧ (∀ db : DBState, (initializeDatabase db).1.tables = emptySavedDB
        ∧ DBEvent.initialized ∈ (initializeDatabase db).1.events)
    ∧ (∀ f2 : String, DBEvent.initialized ∈ (openDatabase disk f2 dir).1.events →
        f2 = ":memory:" ∨ lookupSaved disk f2 = none) := by
  have ho : openDatabase disk f dir
      = ({ isOpen := true, inMemory := false, databaseFilename := f, databaseDir := dir,
           tables := saved, lastError := "", events := [] }, disk) := by
    unfold openDatabase
    rw [if_neg hm, h]
  refine ⟨by rw [ho], by rw [ho], ?_, by rw [ho], ?_, ?_⟩
  · rw [ho]
    exact fun hc => List.not_mem_nil DBEvent.initialized hc
  · intro db
    refine ⟨rfl, ?_⟩
    show DBEvent.initialized ∈ db.events ++ [DBEvent.initialized]
    exact List.mem_append_right db.events (List.mem_singleton.mpr rfl)
  · intro f2 hmem
    by_cases h2 : f2 = ":memory:"
    · exact Or.inl h2
    · cases hl : lookupSaved disk f2 with
      | none => exact Or.inr rfl
      | some s2 =>
        unfold openDatabase at hmem
        rw [if_neg h2, hl] at hmem
        exact absurd hmem (fun hc => List.not_mem_nil DBEvent.initialized hc)

/-! ## Deletion: claim C4 -/

/-- C4: for an indexed series, `removeSeries` removes the series row, every
child instance row and their tag-value records, so the series is no longer
listed by `seriesForStudy` and `filesForSeries` is empty; on success all
stored files and thumbnails of the series are gone from the filesystem, and
the call returns `false` exactly when some file deletion fails. -/
theorem ctk_c4_removeSeries_cascade (db : DBState) (fs : List FSFile) (S : String)
    (hex : seriesExists db S = true) :
    (∀ st, ¬ S ∈ seriesForStudy (removeSeries db fs S).1 st)
    ∧ filesForSeries (removeSeries db fs S).1 S = []
    ∧ (∀ i ∈ (removeSeries db fs S).1.tables.instancesT, ¬ i.seriesUID = S)
    ∧ (∀ tv ∈ (removeSeries db fs S).1.tables.tagValuesT, ∀ i ∈ db.tables.instancesT,
        i.seriesUID = S → ¬ tv.sopInstanceUID = i.sopInstanceUID)
    ∧ ((removeSeries db fs S).2.2 = true →
        ∀ p ∈ removePaths db S, ∀ f2 ∈ (removeSeries db fs S).2.1, ¬ f2.path = p)
    ∧ ((removeSeries db fs S).2.2 = false ↔
        ∃ p ∈ removePaths db S, ∃ f2 ∈ fs, f2.path = p ∧ f2.deletable = false) := by
  obtain ⟨srow, hsrow⟩ : ∃ srow,
      db.tables.seriesT.find? (fun sr => decide (sr.seriesUID = S)) = some srow := by
    cases hf : db.tables.seriesT.find? (fun sr => decide (sr.seriesUID = S)) with
    | some srow => exact ⟨srow, rfl⟩
    | none =>
      rcases List.any_eq_true.mp hex with ⟨sr, hsr, hp⟩
      exact absurd hp (List.find?_eq_none.mp hf sr hsr)
  have hrs : removeSeries db fs S
      = ({ db with
          tables := { db.tables with
            seriesT := db.tables.seriesT.filter (fun sr => !decide (sr.seriesUID = S)),
            instancesT := db.tables.instancesT.filter (fun i => !decide (i.seriesUID = S)),
            tagValuesT := db.tables.tagValuesT.filter
              (fun tv => !(((childInstances db S).map InstanceRec.sopInstanceUID).any
                  (fun u => decide (u = tv.sopInstanceUID)))) },
          events := db.events ++ [DBEvent.databaseChanged] },
        (deleteAll fs (removePaths db S)).1, (deleteAll fs (removePaths db S)).2) := by
    unfold removeSeries
    rw [hsrow]
  rw [hrs]
  dsimp only
  refine ⟨?_, ?_, ?_, ?_, ?_, ?_⟩
  · intro st hmem
    rcases List.mem_map.mp hmem with ⟨sr, hsr, huid⟩
    have h2 := (List.mem_filter.mp (List.mem_filter.mp hsr).1).2
    rw [Bool.not_eq_true'] at h2
    exact of_decide_eq_false h2 huid
  · rw [filesForSeries, List.filterMap_eq_nil_iff]
    intro i hi
    have h2 := (List.mem_filter.mp hi).2
    rw [Bool.not_eq_true'] at h2
    rw [if_neg (of_decide_eq_false h2)]
  · intro i hi
    have h2 := (List.mem_filter.mp hi).2
    rw [Bool.not_eq_true'] at h2
    exact of_decide_eq_false h2
  · intro tv htv i hi hser heq
    have h2 := (List.mem_filter.mp htv).2
    rw [Bool.not_eq_true'] at h2
    have h3 := List.any_eq_false.mp h2
    have hsopmem : i.sopInstanceUID
        ∈ (childInstances db S).map InstanceRec.sopInstanceUID :=
      List.mem_map.mpr ⟨i, List.mem_filter.mpr ⟨hi, by rw [decide_eq_true_eq]; exact hser⟩, rfl⟩
    have h4 := h3 i.sopInstanceUID hsopmem
    rw [decide_eq_true_eq] at h4
    exact h4 heq.symm
  · intro hsucc p hp f2 hf2
    exact deleteAll_removes (removePaths db S) fs p hsucc hp f2 hf2
  · exact deleteAll_false_iff (removePaths db S) fs

/-! ## Entry-point error reporting: claim C9 -/

/-- C9 counterexample: the Q_INVOKABLE `insert(const QString&, ...)` entry
point is declared `void` in the header, so it cannot convey failure through
its return value; the same holds for `openDatabase`. -/
theorem ctk_c9_counterexample :
    declaredReturnType EntryPoint.insertFilePath = CppReturnType.voidReturn
    ∧ conveysFailureViaReturnValue EntryPoint.insertFilePath = false
    ∧ declaredReturnType EntryPoint.openDatabase = CppReturnType.voidReturn
    ∧ conveysFailureViaReturnValue EntryPoint.openDatabase = false := by
  decide

/-- C9 (amended): the `void` Q_INVOKABLE entry points are exactly
`openDatabase`, `closeDatabase`, `loadInstanceHeader`, `loadFileHeader` and
the two `insert` overloads -- these convey failure only through
`lastError()`/`isOpen()`; every other entry point conveys failure through
its boolean or sentinel return value, and a failed `insert` leaves its
textual error in `lastError`, with missing tags reported by the
empty-string sentinel rather than by a failure. -/
theorem ctk_c9_error_reporting_amended :
    (∀ ep : EntryPoint, declaredReturnType ep = CppReturnType.voidReturn ↔
      (ep = EntryPoint.openDatabase ∨ ep = EntryPoint.closeDatabase
       ∨ ep = EntryPoint.loadInstanceHeader ∨ ep = EntryPoint.loadFileHeader
       ∨ ep = EntryPoint.insertDataset ∨ ep = EntryPoint.insertFilePath))
    ∧ (∀ ep : EntryPoint, ¬ declaredReturnType ep = CppReturnType.voidReturn →
        conveysFailureViaReturnValue ep = true)
    ∧ (∀ (db : DBState) (fs : List FSFile) (sf gt ch : Bool), db.isOpen = true →
        (insert db fs none sf gt ch).1.lastError = "unparsable source")
    ∧ (∀ (db : DBState) (fs : List FSFile) (src : Option ParsedDataset) (sf gt ch : Bool),
        db.isOpen = false →
        (insert db fs src sf gt ch).1.lastError = "database not open")
    ∧ (∀ (db : DBState) (sop : String) (g e : Nat),
        (∀ tv ∈ db.tables.tagValuesT,
          ¬ (tv.sopInstanceUID = sop ∧ tv.tg = DicomTag.mk g e)) →
        instanceValue db sop g e = "") := by
  refine ⟨by decide, by decide, ?_, ?_, ?_⟩
  · intro db fs sf gt ch hopen
    rw [insert_unparsable db fs sf gt ch hopen]
  · intro db fs src sf gt ch hclosed
    rw [insert_not_open db fs src sf gt ch hclosed]
  · intro db sop g e habs
    unfold instanceValue
    have hfind : ∀ l : List TagValueRec,
        (∀ tv ∈ l, ¬ (tv.sopInstanceUID = sop ∧ tv.tg = DicomTag.mk g e)) →
        findTagValue l sop ⟨g, e⟩ = none := by
      intro l
      induction l with
      | nil => intro _; rfl
      | cons tv tvs ih =>
        intro hl
        show (if tv.sopInstanceUID = sop ∧ tv.tg = (⟨g, e⟩ : DicomTag) then some tv.value
              else findTagValue tvs sop ⟨g, e⟩) = none
        rw [if_neg (hl tv (List.mem_cons_self tv tvs))]
        exact ih (fun x hx => hl x (List.mem_cons_of_mem tv hx))
    rw [hfind db.tables.tagValuesT habs]
    rfl

/-! ## Witnesses: each claim theorem applied at a concrete input -/

/-- A concrete call sequence for the in-memory isolation witness. -/
def wCalls : List InsertCall := [⟨some wDataset, true, true, true⟩]

/-- Witness for C1 at a concrete open database and dataset. -/
theorem ctk_c1_witness :
    wOpenDB.isOpen = true
    ∧ (insert wOpenDB [] (some wDataset) true true true).2.2 = InsertStatus.inserted
    ∧ (insert (insert wOpenDB [] (some wDataset) true true true).1
        (insert wOpenDB [] (some wDataset) true true true).2.1
        (some wDataset) true true true).1.tables
      = (insert wOpenDB [] (some wDataset) true true true).1.tables := by
  refine ⟨rfl, by decide, ?_⟩
  exact (ctk_c1_insert_idempotent wOpenDB [] wDataset true true true rfl (by decide)).1

/-- Witness for C2 at a concrete open database. -/
theorem ctk_c2_witness :
    ¬ (insert wOpenDB [] none true true true).2.2 = InsertStatus.inserted
    ∧ (insert wOpenDB [] none true true true).1.tables = wOpenDB.tables :=
  ⟨(ctk_c2_unparsable_atomic wOpenDB [] true true true).1,
   (ctk_c2_unparsable_atomic wOpenDB [] true true true).2.1⟩

/-- Witness for C3 at a concrete in-memory database and call sequence. -/
theorem ctk_c3_witness :
    (insertMany (openDatabase [] ":memory:" ["root"]).1 [] wCalls).2 = []
    ∧ ∀ i ∈ (insertMany (openDatabase [] ":memory:" ["root"]).1 [] wCalls).1.tables.instancesT,
        i.filename = none :=
  ctk_c3_inMemory_no_files [] ["root"] [] wCalls

/-- Witness for C4 at a concrete stored series. -/
theorem ctk_c4_witness :
    seriesExists wSeriesDB "SE1" = true
    ∧ (∀ st, ¬ "SE1" ∈ seriesForStudy (removeSeries wSeriesDB wSeriesFS "SE1").1 st)
    ∧ filesForSeries (removeSeries wSeriesDB wSeriesFS "SE1").1 "SE1" = [] := by
  refine ⟨by decide, ?_, ?_⟩
  · exact (ctk_c4_removeSeries_cascade wSeriesDB wSeriesFS "SE1" (by decide)).1
  · exact (ctk_c4_removeSeries_cascade wSeriesDB wSeriesFS "SE1" (by decide)).2.1

/-- Witness for C5 at a concrete storing insert. -/
theorem ctk_c5_witness :
    fileExistsAndUpToDate wOpenDB [] (instPath wOpenDB wDataset) = false
    ∧ fileExistsAndUpToDate (insert wOpenDB [] (some wDataset) true true true).1
        (insert wOpenDB [] (some wDataset) true true true).2.1 (instPath wOpenDB wDataset) = true
    ∧ fileExistsAndUpToDate (insert wOpenDB [] (some wDataset) true true true).1
        (writeFile (insert wOpenDB [] (some wDataset) true true true).2.1
          (instPath wOpenDB wDataset) [9]) (instPath wOpenDB wDataset) = false := by
  have h := ctk_c5_fileExistsAndUpToDate wOpenDB [] wDataset true [1, 2, 3] rfl (by decide)
    rfl rfl (by intro i hi; cases hi) (by decide)
  exact ⟨by decide, h.1, h.2.1 [9] (by decide)⟩

/-- Witness for C6: a present tag round-trips, an absent tag yields the
empty sentinel. -/
theorem ctk_c6_witness :
    datasetTagValue wDataset ⟨16, 16⟩ = some "Doe"
    ∧ instanceValue (insert wOpenDB [] (some wDataset) true true true).1 "I1" 16 16 = "Doe"
    ∧ datasetTagValue wDataset ⟨9, 9⟩ = none
    ∧ instanceValue (insert wOpenDB [] (some wDataset) true true true).1 "I1" 9 9 = "" := by
  refine ⟨by decide, ?_, by decide, ?_⟩
  · exact (ctk_c6_instanceValue_roundtrip wOpenDB [] wDataset true true 16 16 "Doe" rfl
      (by decide)).1 (by decide)
  · exact (ctk_c6_instanceValue_roundtrip wOpenDB [] wDataset true true 9 9 "x" rfl
      (by decide)).2 (by decide)

/-- Witness for C7: one notification for a successful insert, none for a
failed one. -/
theorem ctk_c7_witness :
    (((insert wOpenDB [] (some wDataset) true true true).1.events.drop
        wOpenDB.events.length).count DBEvent.databaseChanged = 1)
    ∧ (((insert wOpenDB [] none true true true).1.events.drop
        wOpenDB.events.length).count DBEvent.databaseChanged = 0) := by
  refine ⟨?_, ?_⟩
  · exact ((ctk_c7_notification_once wOpenDB [] (some wDataset) true true true).1 (by decide)).1
  · exact (ctk_c7_notification_once wOpenDB [] none true true true).2 (by decide)

/-- Witness for C8 at a concrete persistent store. -/
theorem ctk_c8_witness :
    lookupSaved wDisk "ctk.db" = some wSeriesDB.tables
    ∧ (openDatabase wDisk "ctk.db" ["root"]).1.tables = wSeriesDB.tables
    ∧ ¬ DBEvent.initialized ∈ (openDatabase wDisk "ctk.db" ["root"]).1.events := by
  have h := ctk_c8_open_existing_no_init wDisk "ctk.db" ["root"] wSeriesDB.tables (by decide)
    (by decide)
  exact ⟨by decide, h.1, h.2.2.1⟩

/-- Witness for the amended C9 at a concrete failing insert. -/
theorem ctk_c9_witness :
    wOpenDB.isOpen = true
    ∧ (insert wOpenDB [] none true true true).1.lastError = "unparsable source" :=
  ⟨rfl, ctk_c9_error_reporting_amended.2.2.1 wOpenDB [] true true true rfl⟩

/-- Witness for C10 at a concrete zero-filled hex tag key. -/
theorem ctk_c10_witness :
    tagToGroupElement "0010,0010" = some (16, 16)
    ∧ instanceValueTag wSeriesDB "I1" "0010,0010" = instanceValue wSeriesDB "I1" 16 16 := by
  refine ⟨by decide, ?_⟩
  exact (ctk_c10_tag_overload_consistency wSeriesDB "I1" [] "0010,0010" 16 16 (by decide)).1

end CTKDICOM
